import Mathlib

/-!
Verification of the cataplot command-palette engine.

The definitions below are a shallow embedding of the two modules the claims
are about:

* src/cataplot/menu_filter.py — pure fuzzy filtering/ranking;
* src/cataplot/command_palette.py — the palette controller, its worker
  threads and the breadcrumb/MRU navigation.

Python floats are modelled as rationals (every score the code computes is
100 / n for a small positive integer n, which doubles represent exactly in
the relevant comparisons), Python dicts as insertion-ordered association
lists, and Qt signal delivery as explicit emission lists parameterised by
the connection state at each emission time.
-/

set_option maxRecDepth 16384

namespace Cataplot

/-! ## menu_filter.py

`build_regex(query)` produces the pattern `c1.*?c2.*?...cn` from the
characters of the query; `re.search` with `re.IGNORECASE` then finds the
leftmost match.  Two features of the engine matter for fidelity:

* `.` (without `re.DOTALL`) matches every character except a newline, so
  the lazy `.*?` separators can never cross a newline — while the search
  itself may start at any position, also after a newline;
* `re.IGNORECASE` on str patterns compares characters through Unicode
  simple lowercasing (`_sre.unicode_tolower`) extended by the engine's
  table of extra equivalences (`re._casefix._EXTRA_CASES`).

We embed the search as: try every start position from the left; at a
start whose character case-matches the first pattern character, embed
the remaining pattern characters greedily, each at its first occurrence
reachable without skipping a newline (which is exactly what the lazy
quantifiers produce); a failed start falls through to the next one. -/

/-- A binary search tree over code points, used to store the engine's
case-canonicalisation data with logarithmic depth (a flat list would
need recursion as deep as the table is long). -/
inductive FoldTree
  | leaf
  | node (l : FoldTree) (key val : Nat) (r : FoldTree)

/-- Binary search: the canonical code point stored for `n`, if any. -/
def FoldTree.find : FoldTree → Nat → Option Nat
  | FoldTree.leaf, _ => none
  | FoldTree.node l k v r, n =>
    if n < k then l.find n else if n == k then some v else r.find n

/-- Does `p` hold of every value stored in the tree? -/
def FoldTree.allVals (p : Nat → Bool) : FoldTree → Bool
  | FoldTree.leaf => true
  | FoldTree.node l _ v r => p v && l.allVals p && r.allVals p

/-- Canonicalisation data for `re.IGNORECASE` character matching,
generated from the engine's own tables: each stored code point maps to
the least member of the case-equivalence class of its Unicode simple
lowercase (`_sre.unicode_tolower` closed under
`re._casefix._EXTRA_CASES`); code points not stored are their own
canonical form.  Two characters match case-insensitively exactly when
their canonical code points coincide.  The tree lists its 1459 entries
in symmetric order, sorted by code point. -/
def foldTree : FoldTree :=
  (.node (.node (.node (.node (.node (.node (.node (.node (.node (.node (.node .leaf 0x41 0x61
  .leaf) 0x42 0x62 .leaf) 0x43 0x63 (.node (.node .leaf 0x44 0x64 .leaf) 0x45 0x65 .leaf)) 0x46 0x66
  (.node (.node (.node .leaf 0x47 0x67 .leaf) 0x48 0x68 .leaf) 0x49 0x69 (.node (.node .leaf 0x4A
  0x6A .leaf) 0x4B 0x6B .leaf))) 0x4C 0x6C (.node (.node (.node (.node .leaf 0x4D 0x6D .leaf) 0x4E
  0x6E .leaf) 0x4F 0x6F (.node (.node .leaf 0x50 0x70 .leaf) 0x51 0x71 .leaf)) 0x52 0x72 (.node
  (.node (.node .leaf 0x53 0x73 .leaf) 0x54 0x74 .leaf) 0x55 0x75 (.node .leaf 0x56 0x76 .leaf))))
  0x57 0x77 (.node (.node (.node (.node (.node .leaf 0x58 0x78 .leaf) 0x59 0x79 .leaf) 0x5A 0x7A
  (.node (.node .leaf 0xC0 0xE0 .leaf) 0xC1 0xE1 .leaf)) 0xC2 0xE2 (.node (.node (.node .leaf 0xC3
  0xE3 .leaf) 0xC4 0xE4 .leaf) 0xC5 0xE5 (.node (.node .leaf 0xC6 0xE6 .leaf) 0xC7 0xE7 .leaf)))
  0xC8 0xE8 (.node (.node (.node (.node .leaf 0xC9 0xE9 .leaf) 0xCA 0xEA .leaf) 0xCB 0xEB (.node
  (.node .leaf 0xCC 0xEC .leaf) 0xCD 0xED .leaf)) 0xCE 0xEE (.node (.node (.node .leaf 0xCF 0xEF
  .leaf) 0xD0 0xF0 .leaf) 0xD1 0xF1 (.node .leaf 0xD2 0xF2 .leaf))))) 0xD3 0xF3 (.node (.node (.node
  (.node (.node (.node .leaf 0xD4 0xF4 .leaf) 0xD5 0xF5 .leaf) 0xD6 0xF6 (.node (.node .leaf 0xD8
  0xF8 .leaf) 0xD9 0xF9 .leaf)) 0xDA 0xFA (.node (.node (.node .leaf 0xDB 0xFB .leaf) 0xDC 0xFC
  .leaf) 0xDD 0xFD (.node (.node .leaf 0xDE 0xFE .leaf) 0x100 0x101 .leaf))) 0x102 0x103 (.node
  (.node (.node (.node .leaf 0x104 0x105 .leaf) 0x106 0x107 .leaf) 0x108 0x109 (.node (.node .leaf
  0x10A 0x10B .leaf) 0x10C 0x10D .leaf)) 0x10E 0x10F (.node (.node (.node .leaf 0x110 0x111 .leaf)
  0x112 0x113 .leaf) 0x114 0x115 (.node .leaf 0x116 0x117 .leaf)))) 0x118 0x119 (.node (.node (.node
  (.node (.node .leaf 0x11A 0x11B .leaf) 0x11C 0x11D .leaf) 0x11E 0x11F (.node (.node .leaf 0x120
  0x121 .leaf) 0x122 0x123 .leaf)) 0x124 0x125 (.node (.node (.node .leaf 0x126 0x127 .leaf) 0x128
  0x129 .leaf) 0x12A 0x12B (.node (.node .leaf 0x12C 0x12D .leaf) 0x12E 0x12F .leaf))) 0x130 0x69
  (.node (.node (.node (.node .leaf 0x131 0x69 .leaf) 0x132 0x133 .leaf) 0x134 0x135 (.node (.node
  .leaf 0x136 0x137 .leaf) 0x139 0x13A .leaf)) 0x13B 0x13C (.node (.node (.node .leaf 0x13D 0x13E
  .leaf) 0x13F 0x140 .leaf) 0x141 0x142 (.node .leaf 0x143 0x144 .leaf)))))) 0x145 0x146 (.node
  (.node (.node (.node (.node (.node (.node .leaf 0x147 0x148 .leaf) 0x14A 0x14B .leaf) 0x14C 0x14D
  (.node (.node .leaf 0x14E 0x14F .leaf) 0x150 0x151 .leaf)) 0x152 0x153 (.node (.node (.node .leaf
  0x154 0x155 .leaf) 0x156 0x157 .leaf) 0x158 0x159 (.node (.node .leaf 0x15A 0x15B .leaf) 0x15C
  0x15D .leaf))) 0x15E 0x15F (.node (.node (.node (.node .leaf 0x160 0x161 .leaf) 0x162 0x163 .leaf)
  0x164 0x165 (.node (.node .leaf 0x166 0x167 .leaf) 0x168 0x169 .leaf)) 0x16A 0x16B (.node (.node
  (.node .leaf 0x16C 0x16D .leaf) 0x16E 0x16F .leaf) 0x170 0x171 (.node .leaf 0x172 0x173 .leaf))))
  0x174 0x175 (.node (.node (.node (.node (.node .leaf 0x176 0x177 .leaf) 0x178 0xFF .leaf) 0x179
  0x17A (.node (.node .leaf 0x17B 0x17C .leaf) 0x17D 0x17E .leaf)) 0x17F 0x73 (.node (.node (.node
  .leaf 0x181 0x253 .leaf) 0x182 0x183 .leaf) 0x184 0x185 (.node (.node .leaf 0x186 0x254 .leaf)
  0x187 0x188 .leaf))) 0x189 0x256 (.node (.node (.node (.node .leaf 0x18A 0x257 .leaf) 0x18B 0x18C
  .leaf) 0x18E 0x1DD (.node (.node .leaf 0x18F 0x259 .leaf) 0x190 0x25B .leaf)) 0x191 0x192 (.node
  (.node (.node .leaf 0x193 0x260 .leaf) 0x194 0x263 .leaf) 0x196 0x269 (.node .leaf 0x197 0x268
  .leaf))))) 0x198 0x199 (.node (.node (.node (.node (.node (.node .leaf 0x19C 0x26F .leaf) 0x19D
  0x272 .leaf) 0x19F 0x275 (.node (.node .leaf 0x1A0 0x1A1 .leaf) 0x1A2 0x1A3 .leaf)) 0x1A4 0x1A5
  (.node (.node (.node .leaf 0x1A6 0x280 .leaf) 0x1A7 0x1A8 .leaf) 0x1A9 0x283 (.node (.node .leaf
  0x1AC 0x1AD .leaf) 0x1AE 0x288 .leaf))) 0x1AF 0x1B0 (.node (.node (.node (.node .leaf 0x1B1 0x28A
  .leaf) 0x1B2 0x28B .leaf) 0x1B3 0x1B4 (.node (.node .leaf 0x1B5 0x1B6 .leaf) 0x1B7 0x292 .leaf))
  0x1B8 0x1B9 (.node (.node (.node .leaf 0x1BC 0x1BD .leaf) 0x1C4 0x1C6 .leaf) 0x1C5 0x1C6 (.node
  .leaf 0x1C7 0x1C9 .leaf)))) 0x1C8 0x1C9 (.node (.node (.node (.node (.node .leaf 0x1CA 0x1CC
  .leaf) 0x1CB 0x1CC .leaf) 0x1CD 0x1CE (.node (.node .leaf 0x1CF 0x1D0 .leaf) 0x1D1 0x1D2 .leaf))
  0x1D3 0x1D4 (.node (.node (.node .leaf 0x1D5 0x1D6 .leaf) 0x1D7 0x1D8 .leaf) 0x1D9 0x1DA (.node
  .leaf 0x1DB 0x1DC .leaf))) 0x1DE 0x1DF (.node (.node (.node (.node .leaf 0x1E0 0x1E1 .leaf) 0x1E2
  0x1E3 .leaf) 0x1E4 0x1E5 (.node (.node .leaf 0x1E6 0x1E7 .leaf) 0x1E8 0x1E9 .leaf)) 0x1EA 0x1EB
  (.node (.node (.node .leaf 0x1EC 0x1ED .leaf) 0x1EE 0x1EF .leaf) 0x1F1 0x1F3 (.node .leaf 0x1F2
  0x1F3 .leaf))))))) 0x1F4 0x1F5 (.node (.node (.node (.node (.node (.node (.node (.node .leaf 0x1F6
  0x195 .leaf) 0x1F7 0x1BF .leaf) 0x1F8 0x1F9 (.node (.node .leaf 0x1FA 0x1FB .leaf) 0x1FC 0x1FD
  .leaf)) 0x1FE 0x1FF (.node (.node (.node .leaf 0x200 0x201 .leaf) 0x202 0x203 .leaf) 0x204 0x205
  (.node (.node .leaf 0x206 0x207 .leaf) 0x208 0x209 .leaf))) 0x20A 0x20B (.node (.node (.node
  (.node .leaf 0x20C 0x20D .leaf) 0x20E 0x20F .leaf) 0x210 0x211 (.node (.node .leaf 0x212 0x213
  .leaf) 0x214 0x215 .leaf)) 0x216 0x217 (.node (.node (.node .leaf 0x218 0x219 .leaf) 0x21A 0x21B
  .leaf) 0x21C 0x21D (.node .leaf 0x21E 0x21F .leaf)))) 0x220 0x19E (.node (.node (.node (.node
  (.node .leaf 0x222 0x223 .leaf) 0x224 0x225 .leaf) 0x226 0x227 (.node (.node .leaf 0x228 0x229
  .leaf) 0x22A 0x22B .leaf)) 0x22C 0x22D (.node (.node (.node .leaf 0x22E 0x22F .leaf) 0x230 0x231
  .leaf) 0x232 0x233 (.node (.node .leaf 0x23A 0x2C65 .leaf) 0x23B 0x23C .leaf))) 0x23D 0x19A (.node
  (.node (.node (.node .leaf 0x23E 0x2C66 .leaf) 0x241 0x242 .leaf) 0x243 0x180 (.node (.node .leaf
  0x244 0x289 .leaf) 0x245 0x28C .leaf)) 0x246 0x247 (.node (.node (.node .leaf 0x248 0x249 .leaf)
  0x24A 0x24B .leaf) 0x24C 0x24D (.node .leaf 0x24E 0x24F .leaf))))) 0x370 0x371 (.node (.node
  (.node (.node (.node (.node .leaf 0x372 0x373 .leaf) 0x376 0x377 .leaf) 0x37F 0x3F3 (.node (.node
  .leaf 0x386 0x3AC .leaf) 0x388 0x3AD .leaf)) 0x389 0x3AE (.node (.node (.node .leaf 0x38A 0x3AF
  .leaf) 0x38C 0x3CC .leaf) 0x38E 0x3CD (.node (.node .leaf 0x38F 0x3CE .leaf) 0x391 0x3B1 .leaf)))
  0x392 0x3B2 (.node (.node (.node (.node .leaf 0x393 0x3B3 .leaf) 0x394 0x3B4 .leaf) 0x395 0x3B5
  (.node (.node .leaf 0x396 0x3B6 .leaf) 0x397 0x3B7 .leaf)) 0x398 0x3B8 (.node (.node (.node .leaf
  0x399 0x345 .leaf) 0x39A 0x3BA .leaf) 0x39B 0x3BB (.node .leaf 0x39C 0xB5 .leaf)))) 0x39D 0x3BD
  (.node (.node (.node (.node (.node .leaf 0x39E 0x3BE .leaf) 0x39F 0x3BF .leaf) 0x3A0 0x3C0 (.node
  (.node .leaf 0x3A1 0x3C1 .leaf) 0x3A3 0x3C2 .leaf)) 0x3A4 0x3C4 (.node (.node (.node .leaf 0x3A5
  0x3C5 .leaf) 0x3A6 0x3C6 .leaf) 0x3A7 0x3C7 (.node .leaf 0x3A8 0x3C8 .leaf))) 0x3A9 0x3C9 (.node
  (.node (.node (.node .leaf 0x3AA 0x3CA .leaf) 0x3AB 0x3CB .leaf) 0x3B9 0x345 (.node (.node .leaf
  0x3BC 0xB5 .leaf) 0x3C3 0x3C2 .leaf)) 0x3CF 0x3D7 (.node (.node (.node .leaf 0x3D0 0x3B2 .leaf)
  0x3D1 0x3B8 .leaf) 0x3D5 0x3C6 (.node .leaf 0x3D6 0x3C0 .leaf)))))) 0x3D8 0x3D9 (.node (.node
  (.node (.node (.node (.node (.node .leaf 0x3DA 0x3DB .leaf) 0x3DC 0x3DD .leaf) 0x3DE 0x3DF (.node
  (.node .leaf 0x3E0 0x3E1 .leaf) 0x3E2 0x3E3 .leaf)) 0x3E4 0x3E5 (.node (.node (.node .leaf 0x3E6
  0x3E7 .leaf) 0x3E8 0x3E9 .leaf) 0x3EA 0x3EB (.node (.node .leaf 0x3EC 0x3ED .leaf) 0x3EE 0x3EF
  .leaf))) 0x3F0 0x3BA (.node (.node (.node (.node .leaf 0x3F1 0x3C1 .leaf) 0x3F4 0x3B8 .leaf) 0x3F5
  0x3B5 (.node (.node .leaf 0x3F7 0x3F8 .leaf) 0x3F9 0x3F2 .leaf)) 0x3FA 0x3FB (.node (.node (.node
  .leaf 0x3FD 0x37B .leaf) 0x3FE 0x37C .leaf) 0x3FF 0x37D (.node .leaf 0x400 0x450 .leaf)))) 0x401
  0x451 (.node (.node (.node (.node (.node .leaf 0x402 0x452 .leaf) 0x403 0x453 .leaf) 0x404 0x454
  (.node (.node .leaf 0x405 0x455 .leaf) 0x406 0x456 .leaf)) 0x407 0x457 (.node (.node (.node .leaf
  0x408 0x458 .leaf) 0x409 0x459 .leaf) 0x40A 0x45A (.node (.node .leaf 0x40B 0x45B .leaf) 0x40C
  0x45C .leaf))) 0x40D 0x45D (.node (.node (.node (.node .leaf 0x40E 0x45E .leaf) 0x40F 0x45F .leaf)
  0x410 0x430 (.node (.node .leaf 0x411 0x431 .leaf) 0x412 0x432 .leaf)) 0x413 0x433 (.node (.node
  (.node .leaf 0x414 0x434 .leaf) 0x415 0x435 .leaf) 0x416 0x436 (.node .leaf 0x417 0x437 .leaf)))))
  0x418 0x438 (.node (.node (.node (.node (.node (.node .leaf 0x419 0x439 .leaf) 0x41A 0x43A .leaf)
  0x41B 0x43B (.node (.node .leaf 0x41C 0x43C .leaf) 0x41D 0x43D .leaf)) 0x41E 0x43E (.node (.node
  (.node .leaf 0x41F 0x43F .leaf) 0x420 0x440 .leaf) 0x421 0x441 (.node (.node .leaf 0x422 0x442
  .leaf) 0x423 0x443 .leaf))) 0x424 0x444 (.node (.node (.node (.node .leaf 0x425 0x445 .leaf) 0x426
  0x446 .leaf) 0x427 0x447 (.node (.node .leaf 0x428 0x448 .leaf) 0x429 0x449 .leaf)) 0x42A 0x44A
  (.node (.node (.node .leaf 0x42B 0x44B .leaf) 0x42C 0x44C .leaf) 0x42D 0x44D (.node .leaf 0x42E
  0x44E .leaf)))) 0x42F 0x44F (.node (.node (.node (.node (.node .leaf 0x460 0x461 .leaf) 0x462
  0x463 .leaf) 0x464 0x465 (.node (.node .leaf 0x466 0x467 .leaf) 0x468 0x469 .leaf)) 0x46A 0x46B
  (.node (.node (.node .leaf 0x46C 0x46D .leaf) 0x46E 0x46F .leaf) 0x470 0x471 (.node .leaf 0x472
  0x473 .leaf))) 0x474 0x475 (.node (.node (.node (.node .leaf 0x476 0x477 .leaf) 0x478 0x479 .leaf)
  0x47A 0x47B (.node (.node .leaf 0x47C 0x47D .leaf) 0x47E 0x47F .leaf)) 0x480 0x481 (.node (.node
  (.node .leaf 0x48A 0x48B .leaf) 0x48C 0x48D .leaf) 0x48E 0x48F (.node .leaf 0x490 0x491
  .leaf)))))))) 0x492 0x493 (.node (.node (.node (.node (.node (.node (.node (.node (.node .leaf
  0x494 0x495 .leaf) 0x496 0x497 .leaf) 0x498 0x499 (.node (.node .leaf 0x49A 0x49B .leaf) 0x49C
  0x49D .leaf)) 0x49E 0x49F (.node (.node (.node .leaf 0x4A0 0x4A1 .leaf) 0x4A2 0x4A3 .leaf) 0x4A4
  0x4A5 (.node (.node .leaf 0x4A6 0x4A7 .leaf) 0x4A8 0x4A9 .leaf))) 0x4AA 0x4AB (.node (.node (.node
  (.node .leaf 0x4AC 0x4AD .leaf) 0x4AE 0x4AF .leaf) 0x4B0 0x4B1 (.node (.node .leaf 0x4B2 0x4B3
  .leaf) 0x4B4 0x4B5 .leaf)) 0x4B6 0x4B7 (.node (.node (.node .leaf 0x4B8 0x4B9 .leaf) 0x4BA 0x4BB
  .leaf) 0x4BC 0x4BD (.node .leaf 0x4BE 0x4BF .leaf)))) 0x4C0 0x4CF (.node (.node (.node (.node
  (.node .leaf 0x4C1 0x4C2 .leaf) 0x4C3 0x4C4 .leaf) 0x4C5 0x4C6 (.node (.node .leaf 0x4C7 0x4C8
  .leaf) 0x4C9 0x4CA .leaf)) 0x4CB 0x4CC (.node (.node (.node .leaf 0x4CD 0x4CE .leaf) 0x4D0 0x4D1
  .leaf) 0x4D2 0x4D3 (.node (.node .leaf 0x4D4 0x4D5 .leaf) 0x4D6 0x4D7 .leaf))) 0x4D8 0x4D9 (.node
  (.node (.node (.node .leaf 0x4DA 0x4DB .leaf) 0x4DC 0x4DD .leaf) 0x4DE 0x4DF (.node (.node .leaf
  0x4E0 0x4E1 .leaf) 0x4E2 0x4E3 .leaf)) 0x4E4 0x4E5 (.node (.node (.node .leaf 0x4E6 0x4E7 .leaf)
  0x4E8 0x4E9 .leaf) 0x4EA 0x4EB (.node .leaf 0x4EC 0x4ED .leaf))))) 0x4EE 0x4EF (.node (.node
  (.node (.node (.node (.node .leaf 0x4F0 0x4F1 .leaf) 0x4F2 0x4F3 .leaf) 0x4F4 0x4F5 (.node (.node
  .leaf 0x4F6 0x4F7 .leaf) 0x4F8 0x4F9 .leaf)) 0x4FA 0x4FB (.node (.node (.node .leaf 0x4FC 0x4FD
  .leaf) 0x4FE 0x4FF .leaf) 0x500 0x501 (.node (.node .leaf 0x502 0x503 .leaf) 0x504 0x505 .leaf)))
  0x506 0x507 (.node (.node (.node (.node .leaf 0x508 0x509 .leaf) 0x50A 0x50B .leaf) 0x50C 0x50D
  (.node (.node .leaf 0x50E 0x50F .leaf) 0x510 0x511 .leaf)) 0x512 0x513 (.node (.node (.node .leaf
  0x514 0x515 .leaf) 0x516 0x517 .leaf) 0x518 0x519 (.node .leaf 0x51A 0x51B .leaf)))) 0x51C 0x51D
  (.node (.node (.node (.node (.node .leaf 0x51E 0x51F .leaf) 0x520 0x521 .leaf) 0x522 0x523 (.node
  (.node .leaf 0x524 0x525 .leaf) 0x526 0x527 .leaf)) 0x528 0x529 (.node (.node (.node .leaf 0x52A
  0x52B .leaf) 0x52C 0x52D .leaf) 0x52E 0x52F (.node (.node .leaf 0x531 0x561 .leaf) 0x532 0x562
  .leaf))) 0x533 0x563 (.node (.node (.node (.node .leaf 0x534 0x564 .leaf) 0x535 0x565 .leaf) 0x536
  0x566 (.node (.node .leaf 0x537 0x567 .leaf) 0x538 0x568 .leaf)) 0x539 0x569 (.node (.node (.node
  .leaf 0x53A 0x56A .leaf) 0x53B 0x56B .leaf) 0x53C 0x56C (.node .leaf 0x53D 0x56D .leaf)))))) 0x53E
  0x56E (.node (.node (.node (.node (.node (.node (.node .leaf 0x53F 0x56F .leaf) 0x540 0x570 .leaf)
  0x541 0x571 (.node (.node .leaf 0x542 0x572 .leaf) 0x543 0x573 .leaf)) 0x544 0x574 (.node (.node
  (.node .leaf 0x545 0x575 .leaf) 0x546 0x576 .leaf) 0x547 0x577 (.node (.node .leaf 0x548 0x578
  .leaf) 0x549 0x579 .leaf))) 0x54A 0x57A (.node (.node (.node (.node .leaf 0x54B 0x57B .leaf) 0x54C
  0x57C .leaf) 0x54D 0x57D (.node (.node .leaf 0x54E 0x57E .leaf) 0x54F 0x57F .leaf)) 0x550 0x580
  (.node (.node (.node .leaf 0x551 0x581 .leaf) 0x552 0x582 .leaf) 0x553 0x583 (.node .leaf 0x554
  0x584 .leaf)))) 0x555 0x585 (.node (.node (.node (.node (.node .leaf 0x556 0x586 .leaf) 0x10A0
  0x2D00 .leaf) 0x10A1 0x2D01 (.node (.node .leaf 0x10A2 0x2D02 .leaf) 0x10A3 0x2D03 .leaf)) 0x10A4
  0x2D04 (.node (.node (.node .leaf 0x10A5 0x2D05 .leaf) 0x10A6 0x2D06 .leaf) 0x10A7 0x2D07 (.node
  (.node .leaf 0x10A8 0x2D08 .leaf) 0x10A9 0x2D09 .leaf))) 0x10AA 0x2D0A (.node (.node (.node (.node
  .leaf 0x10AB 0x2D0B .leaf) 0x10AC 0x2D0C .leaf) 0x10AD 0x2D0D (.node (.node .leaf 0x10AE 0x2D0E
  .leaf) 0x10AF 0x2D0F .leaf)) 0x10B0 0x2D10 (.node (.node (.node .leaf 0x10B1 0x2D11 .leaf) 0x10B2
  0x2D12 .leaf) 0x10B3 0x2D13 (.node .leaf 0x10B4 0x2D14 .leaf))))) 0x10B5 0x2D15 (.node (.node
  (.node (.node (.node (.node .leaf 0x10B6 0x2D16 .leaf) 0x10B7 0x2D17 .leaf) 0x10B8 0x2D18 (.node
  (.node .leaf 0x10B9 0x2D19 .leaf) 0x10BA 0x2D1A .leaf)) 0x10BB 0x2D1B (.node (.node (.node .leaf
  0x10BC 0x2D1C .leaf) 0x10BD 0x2D1D .leaf) 0x10BE 0x2D1E (.node (.node .leaf 0x10BF 0x2D1F .leaf)
  0x10C0 0x2D20 .leaf))) 0x10C1 0x2D21 (.node (.node (.node (.node .leaf 0x10C2 0x2D22 .leaf) 0x10C3
  0x2D23 .leaf) 0x10C4 0x2D24 (.node (.node .leaf 0x10C5 0x2D25 .leaf) 0x10C7 0x2D27 .leaf)) 0x10CD
  0x2D2D (.node (.node (.node .leaf 0x13A0 0xAB70 .leaf) 0x13A1 0xAB71 .leaf) 0x13A2 0xAB72 (.node
  .leaf 0x13A3 0xAB73 .leaf)))) 0x13A4 0xAB74 (.node (.node (.node (.node (.node .leaf 0x13A5 0xAB75
  .leaf) 0x13A6 0xAB76 .leaf) 0x13A7 0xAB77 (.node (.node .leaf 0x13A8 0xAB78 .leaf) 0x13A9 0xAB79
  .leaf)) 0x13AA 0xAB7A (.node (.node (.node .leaf 0x13AB 0xAB7B .leaf) 0x13AC 0xAB7C .leaf) 0x13AD
  0xAB7D (.node .leaf 0x13AE 0xAB7E .leaf))) 0x13AF 0xAB7F (.node (.node (.node (.node .leaf 0x13B0
  0xAB80 .leaf) 0x13B1 0xAB81 .leaf) 0x13B2 0xAB82 (.node (.node .leaf 0x13B3 0xAB83 .leaf) 0x13B4
  0xAB84 .leaf)) 0x13B5 0xAB85 (.node (.node (.node .leaf 0x13B6 0xAB86 .leaf) 0x13B7 0xAB87 .leaf)
  0x13B8 0xAB88 (.node .leaf 0x13B9 0xAB89 .leaf))))))) 0x13BA 0xAB8A (.node (.node (.node (.node
  (.node (.node (.node (.node .leaf 0x13BB 0xAB8B .leaf) 0x13BC 0xAB8C .leaf) 0x13BD 0xAB8D (.node
  (.node .leaf 0x13BE 0xAB8E .leaf) 0x13BF 0xAB8F .leaf)) 0x13C0 0xAB90 (.node (.node (.node .leaf
  0x13C1 0xAB91 .leaf) 0x13C2 0xAB92 .leaf) 0x13C3 0xAB93 (.node (.node .leaf 0x13C4 0xAB94 .leaf)
  0x13C5 0xAB95 .leaf))) 0x13C6 0xAB96 (.node (.node (.node (.node .leaf 0x13C7 0xAB97 .leaf) 0x13C8
  0xAB98 .leaf) 0x13C9 0xAB99 (.node (.node .leaf 0x13CA 0xAB9A .leaf) 0x13CB 0xAB9B .leaf)) 0x13CC
  0xAB9C (.node (.node (.node .leaf 0x13CD 0xAB9D .leaf) 0x13CE 0xAB9E .leaf) 0x13CF 0xAB9F (.node
  .leaf 0x13D0 0xABA0 .leaf)))) 0x13D1 0xABA1 (.node (.node (.node (.node (.node .leaf 0x13D2 0xABA2
  .leaf) 0x13D3 0xABA3 .leaf) 0x13D4 0xABA4 (.node (.node .leaf 0x13D5 0xABA5 .leaf) 0x13D6 0xABA6
  .leaf)) 0x13D7 0xABA7 (.node (.node (.node .leaf 0x13D8 0xABA8 .leaf) 0x13D9 0xABA9 .leaf) 0x13DA
  0xABAA (.node (.node .leaf 0x13DB 0xABAB .leaf) 0x13DC 0xABAC .leaf))) 0x13DD 0xABAD (.node (.node
  (.node (.node .leaf 0x13DE 0xABAE .leaf) 0x13DF 0xABAF .leaf) 0x13E0 0xABB0 (.node (.node .leaf
  0x13E1 0xABB1 .leaf) 0x13E2 0xABB2 .leaf)) 0x13E3 0xABB3 (.node (.node (.node .leaf 0x13E4 0xABB4
  .leaf) 0x13E5 0xABB5 .leaf) 0x13E6 0xABB6 (.node .leaf 0x13E7 0xABB7 .leaf))))) 0x13E8 0xABB8
  (.node (.node (.node (.node (.node (.node .leaf 0x13E9 0xABB9 .leaf) 0x13EA 0xABBA .leaf) 0x13EB
  0xABBB (.node (.node .leaf 0x13EC 0xABBC .leaf) 0x13ED 0xABBD .leaf)) 0x13EE 0xABBE (.node (.node
  (.node .leaf 0x13EF 0xABBF .leaf) 0x13F0 0x13F8 .leaf) 0x13F1 0x13F9 (.node (.node .leaf 0x13F2
  0x13FA .leaf) 0x13F3 0x13FB .leaf))) 0x13F4 0x13FC (.node (.node (.node (.node .leaf 0x13F5 0x13FD
  .leaf) 0x1C80 0x432 .leaf) 0x1C81 0x434 (.node (.node .leaf 0x1C82 0x43E .leaf) 0x1C83 0x441
  .leaf)) 0x1C84 0x442 (.node (.node (.node .leaf 0x1C85 0x442 .leaf) 0x1C86 0x44A .leaf) 0x1C87
  0x463 (.node .leaf 0x1C90 0x10D0 .leaf)))) 0x1C91 0x10D1 (.node (.node (.node (.node (.node .leaf
  0x1C92 0x10D2 .leaf) 0x1C93 0x10D3 .leaf) 0x1C94 0x10D4 (.node (.node .leaf 0x1C95 0x10D5 .leaf)
  0x1C96 0x10D6 .leaf)) 0x1C97 0x10D7 (.node (.node (.node .leaf 0x1C98 0x10D8 .leaf) 0x1C99 0x10D9
  .leaf) 0x1C9A 0x10DA (.node .leaf 0x1C9B 0x10DB .leaf))) 0x1C9C 0x10DC (.node (.node (.node (.node
  .leaf 0x1C9D 0x10DD .leaf) 0x1C9E 0x10DE .leaf) 0x1C9F 0x10DF (.node (.node .leaf 0x1CA0 0x10E0
  .leaf) 0x1CA1 0x10E1 .leaf)) 0x1CA2 0x10E2 (.node (.node (.node .leaf 0x1CA3 0x10E3 .leaf) 0x1CA4
  0x10E4 .leaf) 0x1CA5 0x10E5 (.node .leaf 0x1CA6 0x10E6 .leaf)))))) 0x1CA7 0x10E7 (.node (.node
  (.node (.node (.node (.node (.node .leaf 0x1CA8 0x10E8 .leaf) 0x1CA9 0x10E9 .leaf) 0x1CAA 0x10EA
  (.node (.node .leaf 0x1CAB 0x10EB .leaf) 0x1CAC 0x10EC .leaf)) 0x1CAD 0x10ED (.node (.node (.node
  .leaf 0x1CAE 0x10EE .leaf) 0x1CAF 0x10EF .leaf) 0x1CB0 0x10F0 (.node (.node .leaf 0x1CB1 0x10F1
  .leaf) 0x1CB2 0x10F2 .leaf))) 0x1CB3 0x10F3 (.node (.node (.node (.node .leaf 0x1CB4 0x10F4 .leaf)
  0x1CB5 0x10F5 .leaf) 0x1CB6 0x10F6 (.node (.node .leaf 0x1CB7 0x10F7 .leaf) 0x1CB8 0x10F8 .leaf))
  0x1CB9 0x10F9 (.node (.node (.node .leaf 0x1CBA 0x10FA .leaf) 0x1CBD 0x10FD .leaf) 0x1CBE 0x10FE
  (.node .leaf 0x1CBF 0x10FF .leaf)))) 0x1E00 0x1E01 (.node (.node (.node (.node (.node .leaf 0x1E02
  0x1E03 .leaf) 0x1E04 0x1E05 .leaf) 0x1E06 0x1E07 (.node (.node .leaf 0x1E08 0x1E09 .leaf) 0x1E0A
  0x1E0B .leaf)) 0x1E0C 0x1E0D (.node (.node (.node .leaf 0x1E0E 0x1E0F .leaf) 0x1E10 0x1E11 .leaf)
  0x1E12 0x1E13 (.node (.node .leaf 0x1E14 0x1E15 .leaf) 0x1E16 0x1E17 .leaf))) 0x1E18 0x1E19 (.node
  (.node (.node (.node .leaf 0x1E1A 0x1E1B .leaf) 0x1E1C 0x1E1D .leaf) 0x1E1E 0x1E1F (.node (.node
  .leaf 0x1E20 0x1E21 .leaf) 0x1E22 0x1E23 .leaf)) 0x1E24 0x1E25 (.node (.node (.node .leaf 0x1E26
  0x1E27 .leaf) 0x1E28 0x1E29 .leaf) 0x1E2A 0x1E2B (.node .leaf 0x1E2C 0x1E2D .leaf))))) 0x1E2E
  0x1E2F (.node (.node (.node (.node (.node (.node .leaf 0x1E30 0x1E31 .leaf) 0x1E32 0x1E33 .leaf)
  0x1E34 0x1E35 (.node (.node .leaf 0x1E36 0x1E37 .leaf) 0x1E38 0x1E39 .leaf)) 0x1E3A 0x1E3B (.node
  (.node (.node .leaf 0x1E3C 0x1E3D .leaf) 0x1E3E 0x1E3F .leaf) 0x1E40 0x1E41 (.node (.node .leaf
  0x1E42 0x1E43 .leaf) 0x1E44 0x1E45 .leaf))) 0x1E46 0x1E47 (.node (.node (.node (.node .leaf 0x1E48
  0x1E49 .leaf) 0x1E4A 0x1E4B .leaf) 0x1E4C 0x1E4D (.node (.node .leaf 0x1E4E 0x1E4F .leaf) 0x1E50
  0x1E51 .leaf)) 0x1E52 0x1E53 (.node (.node (.node .leaf 0x1E54 0x1E55 .leaf) 0x1E56 0x1E57 .leaf)
  0x1E58 0x1E59 (.node .leaf 0x1E5A 0x1E5B .leaf)))) 0x1E5C 0x1E5D (.node (.node (.node (.node
  (.node .leaf 0x1E5E 0x1E5F .leaf) 0x1E60 0x1E61 .leaf) 0x1E62 0x1E63 (.node (.node .leaf 0x1E64
  0x1E65 .leaf) 0x1E66 0x1E67 .leaf)) 0x1E68 0x1E69 (.node (.node (.node .leaf 0x1E6A 0x1E6B .leaf)
  0x1E6C 0x1E6D .leaf) 0x1E6E 0x1E6F (.node .leaf 0x1E70 0x1E71 .leaf))) 0x1E72 0x1E73 (.node (.node
  (.node (.node .leaf 0x1E74 0x1E75 .leaf) 0x1E76 0x1E77 .leaf) 0x1E78 0x1E79 (.node (.node .leaf
  0x1E7A 0x1E7B .leaf) 0x1E7C 0x1E7D .leaf)) 0x1E7E 0x1E7F (.node (.node (.node .leaf 0x1E80 0x1E81
  .leaf) 0x1E82 0x1E83 .leaf) 0x1E84 0x1E85 (.node .leaf 0x1E86 0x1E87 .leaf))))))))) 0x1E88 0x1E89
  (.node (.node (.node (.node (.node (.node (.node (.node (.node (.node .leaf 0x1E8A 0x1E8B .leaf)
  0x1E8C 0x1E8D .leaf) 0x1E8E 0x1E8F (.node (.node .leaf 0x1E90 0x1E91 .leaf) 0x1E92 0x1E93 .leaf))
  0x1E94 0x1E95 (.node (.node (.node .leaf 0x1E9B 0x1E61 .leaf) 0x1E9E 0xDF .leaf) 0x1EA0 0x1EA1
  (.node (.node .leaf 0x1EA2 0x1EA3 .leaf) 0x1EA4 0x1EA5 .leaf))) 0x1EA6 0x1EA7 (.node (.node (.node
  (.node .leaf 0x1EA8 0x1EA9 .leaf) 0x1EAA 0x1EAB .leaf) 0x1EAC 0x1EAD (.node (.node .leaf 0x1EAE
  0x1EAF .leaf) 0x1EB0 0x1EB1 .leaf)) 0x1EB2 0x1EB3 (.node (.node (.node .leaf 0x1EB4 0x1EB5 .leaf)
  0x1EB6 0x1EB7 .leaf) 0x1EB8 0x1EB9 (.node .leaf 0x1EBA 0x1EBB .leaf)))) 0x1EBC 0x1EBD (.node
  (.node (.node (.node (.node .leaf 0x1EBE 0x1EBF .leaf) 0x1EC0 0x1EC1 .leaf) 0x1EC2 0x1EC3 (.node
  (.node .leaf 0x1EC4 0x1EC5 .leaf) 0x1EC6 0x1EC7 .leaf)) 0x1EC8 0x1EC9 (.node (.node (.node .leaf
  0x1ECA 0x1ECB .leaf) 0x1ECC 0x1ECD .leaf) 0x1ECE 0x1ECF (.node (.node .leaf 0x1ED0 0x1ED1 .leaf)
  0x1ED2 0x1ED3 .leaf))) 0x1ED4 0x1ED5 (.node (.node (.node (.node .leaf 0x1ED6 0x1ED7 .leaf) 0x1ED8
  0x1ED9 .leaf) 0x1EDA 0x1EDB (.node (.node .leaf 0x1EDC 0x1EDD .leaf) 0x1EDE 0x1EDF .leaf)) 0x1EE0
  0x1EE1 (.node (.node (.node .leaf 0x1EE2 0x1EE3 .leaf) 0x1EE4 0x1EE5 .leaf) 0x1EE6 0x1EE7 (.node
  .leaf 0x1EE8 0x1EE9 .leaf))))) 0x1EEA 0x1EEB (.node (.node (.node (.node (.node (.node .leaf
  0x1EEC 0x1EED .leaf) 0x1EEE 0x1EEF .leaf) 0x1EF0 0x1EF1 (.node (.node .leaf 0x1EF2 0x1EF3 .leaf)
  0x1EF4 0x1EF5 .leaf)) 0x1EF6 0x1EF7 (.node (.node (.node .leaf 0x1EF8 0x1EF9 .leaf) 0x1EFA 0x1EFB
  .leaf) 0x1EFC 0x1EFD (.node (.node .leaf 0x1EFE 0x1EFF .leaf) 0x1F08 0x1F00 .leaf))) 0x1F09 0x1F01
  (.node (.node (.node (.node .leaf 0x1F0A 0x1F02 .leaf) 0x1F0B 0x1F03 .leaf) 0x1F0C 0x1F04 (.node
  (.node .leaf 0x1F0D 0x1F05 .leaf) 0x1F0E 0x1F06 .leaf)) 0x1F0F 0x1F07 (.node (.node (.node .leaf
  0x1F18 0x1F10 .leaf) 0x1F19 0x1F11 .leaf) 0x1F1A 0x1F12 (.node .leaf 0x1F1B 0x1F13 .leaf))))
  0x1F1C 0x1F14 (.node (.node (.node (.node (.node .leaf 0x1F1D 0x1F15 .leaf) 0x1F28 0x1F20 .leaf)
  0x1F29 0x1F21 (.node (.node .leaf 0x1F2A 0x1F22 .leaf) 0x1F2B 0x1F23 .leaf)) 0x1F2C 0x1F24 (.node
  (.node (.node .leaf 0x1F2D 0x1F25 .leaf) 0x1F2E 0x1F26 .leaf) 0x1F2F 0x1F27 (.node (.node .leaf
  0x1F38 0x1F30 .leaf) 0x1F39 0x1F31 .leaf))) 0x1F3A 0x1F32 (.node (.node (.node (.node .leaf 0x1F3B
  0x1F33 .leaf) 0x1F3C 0x1F34 .leaf) 0x1F3D 0x1F35 (.node (.node .leaf 0x1F3E 0x1F36 .leaf) 0x1F3F
  0x1F37 .leaf)) 0x1F48 0x1F40 (.node (.node (.node .leaf 0x1F49 0x1F41 .leaf) 0x1F4A 0x1F42 .leaf)
  0x1F4B 0x1F43 (.node .leaf 0x1F4C 0x1F44 .leaf)))))) 0x1F4D 0x1F45 (.node (.node (.node (.node
  (.node (.node (.node .leaf 0x1F59 0x1F51 .leaf) 0x1F5B 0x1F53 .leaf) 0x1F5D 0x1F55 (.node (.node
  .leaf 0x1F5F 0x1F57 .leaf) 0x1F68 0x1F60 .leaf)) 0x1F69 0x1F61 (.node (.node (.node .leaf 0x1F6A
  0x1F62 .leaf) 0x1F6B 0x1F63 .leaf) 0x1F6C 0x1F64 (.node (.node .leaf 0x1F6D 0x1F65 .leaf) 0x1F6E
  0x1F66 .leaf))) 0x1F6F 0x1F67 (.node (.node (.node (.node .leaf 0x1F88 0x1F80 .leaf) 0x1F89 0x1F81
  .leaf) 0x1F8A 0x1F82 (.node (.node .leaf 0x1F8B 0x1F83 .leaf) 0x1F8C 0x1F84 .leaf)) 0x1F8D 0x1F85
  (.node (.node (.node .leaf 0x1F8E 0x1F86 .leaf) 0x1F8F 0x1F87 .leaf) 0x1F98 0x1F90 (.node .leaf
  0x1F99 0x1F91 .leaf)))) 0x1F9A 0x1F92 (.node (.node (.node (.node (.node .leaf 0x1F9B 0x1F93
  .leaf) 0x1F9C 0x1F94 .leaf) 0x1F9D 0x1F95 (.node (.node .leaf 0x1F9E 0x1F96 .leaf) 0x1F9F 0x1F97
  .leaf)) 0x1FA8 0x1FA0 (.node (.node (.node .leaf 0x1FA9 0x1FA1 .leaf) 0x1FAA 0x1FA2 .leaf) 0x1FAB
  0x1FA3 (.node (.node .leaf 0x1FAC 0x1FA4 .leaf) 0x1FAD 0x1FA5 .leaf))) 0x1FAE 0x1FA6 (.node (.node
  (.node (.node .leaf 0x1FAF 0x1FA7 .leaf) 0x1FB8 0x1FB0 .leaf) 0x1FB9 0x1FB1 (.node (.node .leaf
  0x1FBA 0x1F70 .leaf) 0x1FBB 0x1F71 .leaf)) 0x1FBC 0x1FB3 (.node (.node (.node .leaf 0x1FBE 0x345
  .leaf) 0x1FC8 0x1F72 .leaf) 0x1FC9 0x1F73 (.node .leaf 0x1FCA 0x1F74 .leaf))))) 0x1FCB 0x1F75
  (.node (.node (.node (.node (.node (.node .leaf 0x1FCC 0x1FC3 .leaf) 0x1FD3 0x390 .leaf) 0x1FD8
  0x1FD0 (.node (.node .leaf 0x1FD9 0x1FD1 .leaf) 0x1FDA 0x1F76 .leaf)) 0x1FDB 0x1F77 (.node (.node
  (.node .leaf 0x1FE3 0x3B0 .leaf) 0x1FE8 0x1FE0 .leaf) 0x1FE9 0x1FE1 (.node (.node .leaf 0x1FEA
  0x1F7A .leaf) 0x1FEB 0x1F7B .leaf))) 0x1FEC 0x1FE5 (.node (.node (.node (.node .leaf 0x1FF8 0x1F78
  .leaf) 0x1FF9 0x1F79 .leaf) 0x1FFA 0x1F7C (.node (.node .leaf 0x1FFB 0x1F7D .leaf) 0x1FFC 0x1FF3
  .leaf)) 0x2126 0x3C9 (.node (.node (.node .leaf 0x212A 0x6B .leaf) 0x212B 0xE5 .leaf) 0x2132
  0x214E (.node .leaf 0x2160 0x2170 .leaf)))) 0x2161 0x2171 (.node (.node (.node (.node (.node .leaf
  0x2162 0x2172 .leaf) 0x2163 0x2173 .leaf) 0x2164 0x2174 (.node (.node .leaf 0x2165 0x2175 .leaf)
  0x2166 0x2176 .leaf)) 0x2167 0x2177 (.node (.node (.node .leaf 0x2168 0x2178 .leaf) 0x2169 0x2179
  .leaf) 0x216A 0x217A (.node .leaf 0x216B 0x217B .leaf))) 0x216C 0x217C (.node (.node (.node (.node
  .leaf 0x216D 0x217D .leaf) 0x216E 0x217E .leaf) 0x216F 0x217F (.node (.node .leaf 0x2183 0x2184
  .leaf) 0x24B6 0x24D0 .leaf)) 0x24B7 0x24D1 (.node (.node (.node .leaf 0x24B8 0x24D2 .leaf) 0x24B9
  0x24D3 .leaf) 0x24BA 0x24D4 (.node .leaf 0x24BB 0x24D5 .leaf))))))) 0x24BC 0x24D6 (.node (.node
  (.node (.node (.node (.node (.node (.node .leaf 0x24BD 0x24D7 .leaf) 0x24BE 0x24D8 .leaf) 0x24BF
  0x24D9 (.node (.node .leaf 0x24C0 0x24DA .leaf) 0x24C1 0x24DB .leaf)) 0x24C2 0x24DC (.node (.node
  (.node .leaf 0x24C3 0x24DD .leaf) 0x24C4 0x24DE .leaf) 0x24C5 0x24DF (.node (.node .leaf 0x24C6
  0x24E0 .leaf) 0x24C7 0x24E1 .leaf))) 0x24C8 0x24E2 (.node (.node (.node (.node .leaf 0x24C9 0x24E3
  .leaf) 0x24CA 0x24E4 .leaf) 0x24CB 0x24E5 (.node (.node .leaf 0x24CC 0x24E6 .leaf) 0x24CD 0x24E7
  .leaf)) 0x24CE 0x24E8 (.node (.node (.node .leaf 0x24CF 0x24E9 .leaf) 0x2C00 0x2C30 .leaf) 0x2C01
  0x2C31 (.node .leaf 0x2C02 0x2C32 .leaf)))) 0x2C03 0x2C33 (.node (.node (.node (.node (.node .leaf
  0x2C04 0x2C34 .leaf) 0x2C05 0x2C35 .leaf) 0x2C06 0x2C36 (.node (.node .leaf 0x2C07 0x2C37 .leaf)
  0x2C08 0x2C38 .leaf)) 0x2C09 0x2C39 (.node (.node (.node .leaf 0x2C0A 0x2C3A .leaf) 0x2C0B 0x2C3B
  .leaf) 0x2C0C 0x2C3C (.node (.node .leaf 0x2C0D 0x2C3D .leaf) 0x2C0E 0x2C3E .leaf))) 0x2C0F 0x2C3F
  (.node (.node (.node (.node .leaf 0x2C10 0x2C40 .leaf) 0x2C11 0x2C41 .leaf) 0x2C12 0x2C42 (.node
  (.node .leaf 0x2C13 0x2C43 .leaf) 0x2C14 0x2C44 .leaf)) 0x2C15 0x2C45 (.node (.node (.node .leaf
  0x2C16 0x2C46 .leaf) 0x2C17 0x2C47 .leaf) 0x2C18 0x2C48 (.node .leaf 0x2C19 0x2C49 .leaf)))))
  0x2C1A 0x2C4A (.node (.node (.node (.node (.node (.node .leaf 0x2C1B 0x2C4B .leaf) 0x2C1C 0x2C4C
  .leaf) 0x2C1D 0x2C4D (.node (.node .leaf 0x2C1E 0x2C4E .leaf) 0x2C1F 0x2C4F .leaf)) 0x2C20 0x2C50
  (.node (.node (.node .leaf 0x2C21 0x2C51 .leaf) 0x2C22 0x2C52 .leaf) 0x2C23 0x2C53 (.node (.node
  .leaf 0x2C24 0x2C54 .leaf) 0x2C25 0x2C55 .leaf))) 0x2C26 0x2C56 (.node (.node (.node (.node .leaf
  0x2C27 0x2C57 .leaf) 0x2C28 0x2C58 .leaf) 0x2C29 0x2C59 (.node (.node .leaf 0x2C2A 0x2C5A .leaf)
  0x2C2B 0x2C5B .leaf)) 0x2C2C 0x2C5C (.node (.node (.node .leaf 0x2C2D 0x2C5D .leaf) 0x2C2E 0x2C5E
  .leaf) 0x2C2F 0x2C5F (.node .leaf 0x2C60 0x2C61 .leaf)))) 0x2C62 0x26B (.node (.node (.node (.node
  (.node .leaf 0x2C63 0x1D7D .leaf) 0x2C64 0x27D .leaf) 0x2C67 0x2C68 (.node (.node .leaf 0x2C69
  0x2C6A .leaf) 0x2C6B 0x2C6C .leaf)) 0x2C6D 0x251 (.node (.node (.node .leaf 0x2C6E 0x271 .leaf)
  0x2C6F 0x250 .leaf) 0x2C70 0x252 (.node .leaf 0x2C72 0x2C73 .leaf))) 0x2C75 0x2C76 (.node (.node
  (.node (.node .leaf 0x2C7E 0x23F .leaf) 0x2C7F 0x240 .leaf) 0x2C80 0x2C81 (.node (.node .leaf
  0x2C82 0x2C83 .leaf) 0x2C84 0x2C85 .leaf)) 0x2C86 0x2C87 (.node (.node (.node .leaf 0x2C88 0x2C89
  .leaf) 0x2C8A 0x2C8B .leaf) 0x2C8C 0x2C8D (.node .leaf 0x2C8E 0x2C8F .leaf)))))) 0x2C90 0x2C91
  (.node (.node (.node (.node (.node (.node (.node .leaf 0x2C92 0x2C93 .leaf) 0x2C94 0x2C95 .leaf)
  0x2C96 0x2C97 (.node (.node .leaf 0x2C98 0x2C99 .leaf) 0x2C9A 0x2C9B .leaf)) 0x2C9C 0x2C9D (.node
  (.node (.node .leaf 0x2C9E 0x2C9F .leaf) 0x2CA0 0x2CA1 .leaf) 0x2CA2 0x2CA3 (.node (.node .leaf
  0x2CA4 0x2CA5 .leaf) 0x2CA6 0x2CA7 .leaf))) 0x2CA8 0x2CA9 (.node (.node (.node (.node .leaf 0x2CAA
  0x2CAB .leaf) 0x2CAC 0x2CAD .leaf) 0x2CAE 0x2CAF (.node (.node .leaf 0x2CB0 0x2CB1 .leaf) 0x2CB2
  0x2CB3 .leaf)) 0x2CB4 0x2CB5 (.node (.node (.node .leaf 0x2CB6 0x2CB7 .leaf) 0x2CB8 0x2CB9 .leaf)
  0x2CBA 0x2CBB (.node .leaf 0x2CBC 0x2CBD .leaf)))) 0x2CBE 0x2CBF (.node (.node (.node (.node
  (.node .leaf 0x2CC0 0x2CC1 .leaf) 0x2CC2 0x2CC3 .leaf) 0x2CC4 0x2CC5 (.node (.node .leaf 0x2CC6
  0x2CC7 .leaf) 0x2CC8 0x2CC9 .leaf)) 0x2CCA 0x2CCB (.node (.node (.node .leaf 0x2CCC 0x2CCD .leaf)
  0x2CCE 0x2CCF .leaf) 0x2CD0 0x2CD1 (.node (.node .leaf 0x2CD2 0x2CD3 .leaf) 0x2CD4 0x2CD5 .leaf)))
  0x2CD6 0x2CD7 (.node (.node (.node (.node .leaf 0x2CD8 0x2CD9 .leaf) 0x2CDA 0x2CDB .leaf) 0x2CDC
  0x2CDD (.node (.node .leaf 0x2CDE 0x2CDF .leaf) 0x2CE0 0x2CE1 .leaf)) 0x2CE2 0x2CE3 (.node (.node
  (.node .leaf 0x2CEB 0x2CEC .leaf) 0x2CED 0x2CEE .leaf) 0x2CF2 0x2CF3 (.node .leaf 0xA640 0xA641
  .leaf))))) 0xA642 0xA643 (.node (.node (.node (.node (.node (.node .leaf 0xA644 0xA645 .leaf)
  0xA646 0xA647 .leaf) 0xA648 0xA649 (.node (.node .leaf 0xA64A 0x1C88 .leaf) 0xA64B 0x1C88 .leaf))
  0xA64C 0xA64D (.node (.node (.node .leaf 0xA64E 0xA64F .leaf) 0xA650 0xA651 .leaf) 0xA652 0xA653
  (.node (.node .leaf 0xA654 0xA655 .leaf) 0xA656 0xA657 .leaf))) 0xA658 0xA659 (.node (.node (.node
  (.node .leaf 0xA65A 0xA65B .leaf) 0xA65C 0xA65D .leaf) 0xA65E 0xA65F (.node (.node .leaf 0xA660
  0xA661 .leaf) 0xA662 0xA663 .leaf)) 0xA664 0xA665 (.node (.node (.node .leaf 0xA666 0xA667 .leaf)
  0xA668 0xA669 .leaf) 0xA66A 0xA66B (.node .leaf 0xA66C 0xA66D .leaf)))) 0xA680 0xA681 (.node
  (.node (.node (.node (.node .leaf 0xA682 0xA683 .leaf) 0xA684 0xA685 .leaf) 0xA686 0xA687 (.node
  (.node .leaf 0xA688 0xA689 .leaf) 0xA68A 0xA68B .leaf)) 0xA68C 0xA68D (.node (.node (.node .leaf
  0xA68E 0xA68F .leaf) 0xA690 0xA691 .leaf) 0xA692 0xA693 (.node .leaf 0xA694 0xA695 .leaf))) 0xA696
  0xA697 (.node (.node (.node (.node .leaf 0xA698 0xA699 .leaf) 0xA69A 0xA69B .leaf) 0xA722 0xA723
  (.node (.node .leaf 0xA724 0xA725 .leaf) 0xA726 0xA727 .leaf)) 0xA728 0xA729 (.node (.node (.node
  .leaf 0xA72A 0xA72B .leaf) 0xA72C 0xA72D .leaf) 0xA72E 0xA72F (.node .leaf 0xA732 0xA733
  .leaf)))))))) 0xA734 0xA735 (.node (.node (.node (.node (.node (.node (.node (.node (.node .leaf
  0xA736 0xA737 .leaf) 0xA738 0xA739 .leaf) 0xA73A 0xA73B (.node (.node .leaf 0xA73C 0xA73D .leaf)
  0xA73E 0xA73F .leaf)) 0xA740 0xA741 (.node (.node (.node .leaf 0xA742 0xA743 .leaf) 0xA744 0xA745
  .leaf) 0xA746 0xA747 (.node (.node .leaf 0xA748 0xA749 .leaf) 0xA74A 0xA74B .leaf))) 0xA74C 0xA74D
  (.node (.node (.node (.node .leaf 0xA74E 0xA74F .leaf) 0xA750 0xA751 .leaf) 0xA752 0xA753 (.node
  (.node .leaf 0xA754 0xA755 .leaf) 0xA756 0xA757 .leaf)) 0xA758 0xA759 (.node (.node (.node .leaf
  0xA75A 0xA75B .leaf) 0xA75C 0xA75D .leaf) 0xA75E 0xA75F (.node .leaf 0xA760 0xA761 .leaf))))
  0xA762 0xA763 (.node (.node (.node (.node (.node .leaf 0xA764 0xA765 .leaf) 0xA766 0xA767 .leaf)
  0xA768 0xA769 (.node (.node .leaf 0xA76A 0xA76B .leaf) 0xA76C 0xA76D .leaf)) 0xA76E 0xA76F (.node
  (.node (.node .leaf 0xA779 0xA77A .leaf) 0xA77B 0xA77C .leaf) 0xA77D 0x1D79 (.node (.node .leaf
  0xA77E 0xA77F .leaf) 0xA780 0xA781 .leaf))) 0xA782 0xA783 (.node (.node (.node (.node .leaf 0xA784
  0xA785 .leaf) 0xA786 0xA787 .leaf) 0xA78B 0xA78C (.node (.node .leaf 0xA78D 0x265 .leaf) 0xA790
  0xA791 .leaf)) 0xA792 0xA793 (.node (.node (.node .leaf 0xA796 0xA797 .leaf) 0xA798 0xA799 .leaf)
  0xA79A 0xA79B (.node .leaf 0xA79C 0xA79D .leaf))))) 0xA79E 0xA79F (.node (.node (.node (.node
  (.node (.node .leaf 0xA7A0 0xA7A1 .leaf) 0xA7A2 0xA7A3 .leaf) 0xA7A4 0xA7A5 (.node (.node .leaf
  0xA7A6 0xA7A7 .leaf) 0xA7A8 0xA7A9 .leaf)) 0xA7AA 0x266 (.node (.node (.node .leaf 0xA7AB 0x25C
  .leaf) 0xA7AC 0x261 .leaf) 0xA7AD 0x26C (.node (.node .leaf 0xA7AE 0x26A .leaf) 0xA7B0 0x29E
  .leaf))) 0xA7B1 0x287 (.node (.node (.node (.node .leaf 0xA7B2 0x29D .leaf) 0xA7B3 0xAB53 .leaf)
  0xA7B4 0xA7B5 (.node (.node .leaf 0xA7B6 0xA7B7 .leaf) 0xA7B8 0xA7B9 .leaf)) 0xA7BA 0xA7BB (.node
  (.node (.node .leaf 0xA7BC 0xA7BD .leaf) 0xA7BE 0xA7BF .leaf) 0xA7C0 0xA7C1 (.node .leaf 0xA7C2
  0xA7C3 .leaf)))) 0xA7C4 0xA794 (.node (.node (.node (.node (.node .leaf 0xA7C5 0x282 .leaf) 0xA7C6
  0x1D8E .leaf) 0xA7C7 0xA7C8 (.node (.node .leaf 0xA7C9 0xA7CA .leaf) 0xA7D0 0xA7D1 .leaf)) 0xA7D6
  0xA7D7 (.node (.node (.node .leaf 0xA7D8 0xA7D9 .leaf) 0xA7F5 0xA7F6 .leaf) 0xFB06 0xFB05 (.node
  (.node .leaf 0xFF21 0xFF41 .leaf) 0xFF22 0xFF42 .leaf))) 0xFF23 0xFF43 (.node (.node (.node (.node
  .leaf 0xFF24 0xFF44 .leaf) 0xFF25 0xFF45 .leaf) 0xFF26 0xFF46 (.node (.node .leaf 0xFF27 0xFF47
  .leaf) 0xFF28 0xFF48 .leaf)) 0xFF29 0xFF49 (.node (.node (.node .leaf 0xFF2A 0xFF4A .leaf) 0xFF2B
  0xFF4B .leaf) 0xFF2C 0xFF4C (.node .leaf 0xFF2D 0xFF4D .leaf)))))) 0xFF2E 0xFF4E (.node (.node
  (.node (.node (.node (.node (.node .leaf 0xFF2F 0xFF4F .leaf) 0xFF30 0xFF50 .leaf) 0xFF31 0xFF51
  (.node (.node .leaf 0xFF32 0xFF52 .leaf) 0xFF33 0xFF53 .leaf)) 0xFF34 0xFF54 (.node (.node (.node
  .leaf 0xFF35 0xFF55 .leaf) 0xFF36 0xFF56 .leaf) 0xFF37 0xFF57 (.node (.node .leaf 0xFF38 0xFF58
  .leaf) 0xFF39 0xFF59 .leaf))) 0xFF3A 0xFF5A (.node (.node (.node (.node .leaf 0x10400 0x10428
  .leaf) 0x10401 0x10429 .leaf) 0x10402 0x1042A (.node (.node .leaf 0x10403 0x1042B .leaf) 0x10404
  0x1042C .leaf)) 0x10405 0x1042D (.node (.node (.node .leaf 0x10406 0x1042E .leaf) 0x10407 0x1042F
  .leaf) 0x10408 0x10430 (.node .leaf 0x10409 0x10431 .leaf)))) 0x1040A 0x10432 (.node (.node (.node
  (.node (.node .leaf 0x1040B 0x10433 .leaf) 0x1040C 0x10434 .leaf) 0x1040D 0x10435 (.node (.node
  .leaf 0x1040E 0x10436 .leaf) 0x1040F 0x10437 .leaf)) 0x10410 0x10438 (.node (.node (.node .leaf
  0x10411 0x10439 .leaf) 0x10412 0x1043A .leaf) 0x10413 0x1043B (.node (.node .leaf 0x10414 0x1043C
  .leaf) 0x10415 0x1043D .leaf))) 0x10416 0x1043E (.node (.node (.node (.node .leaf 0x10417 0x1043F
  .leaf) 0x10418 0x10440 .leaf) 0x10419 0x10441 (.node (.node .leaf 0x1041A 0x10442 .leaf) 0x1041B
  0x10443 .leaf)) 0x1041C 0x10444 (.node (.node (.node .leaf 0x1041D 0x10445 .leaf) 0x1041E 0x10446
  .leaf) 0x1041F 0x10447 (.node .leaf 0x10420 0x10448 .leaf))))) 0x10421 0x10449 (.node (.node
  (.node (.node (.node (.node .leaf 0x10422 0x1044A .leaf) 0x10423 0x1044B .leaf) 0x10424 0x1044C
  (.node (.node .leaf 0x10425 0x1044D .leaf) 0x10426 0x1044E .leaf)) 0x10427 0x1044F (.node (.node
  (.node .leaf 0x104B0 0x104D8 .leaf) 0x104B1 0x104D9 .leaf) 0x104B2 0x104DA (.node (.node .leaf
  0x104B3 0x104DB .leaf) 0x104B4 0x104DC .leaf))) 0x104B5 0x104DD (.node (.node (.node (.node .leaf
  0x104B6 0x104DE .leaf) 0x104B7 0x104DF .leaf) 0x104B8 0x104E0 (.node (.node .leaf 0x104B9 0x104E1
  .leaf) 0x104BA 0x104E2 .leaf)) 0x104BB 0x104E3 (.node (.node (.node .leaf 0x104BC 0x104E4 .leaf)
  0x104BD 0x104E5 .leaf) 0x104BE 0x104E6 (.node .leaf 0x104BF 0x104E7 .leaf)))) 0x104C0 0x104E8
  (.node (.node (.node (.node (.node .leaf 0x104C1 0x104E9 .leaf) 0x104C2 0x104EA .leaf) 0x104C3
  0x104EB (.node (.node .leaf 0x104C4 0x104EC .leaf) 0x104C5 0x104ED .leaf)) 0x104C6 0x104EE (.node
  (.node (.node .leaf 0x104C7 0x104EF .leaf) 0x104C8 0x104F0 .leaf) 0x104C9 0x104F1 (.node .leaf
  0x104CA 0x104F2 .leaf))) 0x104CB 0x104F3 (.node (.node (.node (.node .leaf 0x104CC 0x104F4 .leaf)
  0x104CD 0x104F5 .leaf) 0x104CE 0x104F6 (.node (.node .leaf 0x104CF 0x104F7 .leaf) 0x104D0 0x104F8
  .leaf)) 0x104D1 0x104F9 (.node (.node (.node .leaf 0x104D2 0x104FA .leaf) 0x104D3 0x104FB .leaf)
  0x10570 0x10597 (.node .leaf 0x10571 0x10598 .leaf))))))) 0x10572 0x10599 (.node (.node (.node
  (.node (.node (.node (.node (.node .leaf 0x10573 0x1059A .leaf) 0x10574 0x1059B .leaf) 0x10575
  0x1059C (.node (.node .leaf 0x10576 0x1059D .leaf) 0x10577 0x1059E .leaf)) 0x10578 0x1059F (.node
  (.node (.node .leaf 0x10579 0x105A0 .leaf) 0x1057A 0x105A1 .leaf) 0x1057C 0x105A3 (.node (.node
  .leaf 0x1057D 0x105A4 .leaf) 0x1057E 0x105A5 .leaf))) 0x1057F 0x105A6 (.node (.node (.node (.node
  .leaf 0x10580 0x105A7 .leaf) 0x10581 0x105A8 .leaf) 0x10582 0x105A9 (.node (.node .leaf 0x10583
  0x105AA .leaf) 0x10584 0x105AB .leaf)) 0x10585 0x105AC (.node (.node (.node .leaf 0x10586 0x105AD
  .leaf) 0x10587 0x105AE .leaf) 0x10588 0x105AF (.node .leaf 0x10589 0x105B0 .leaf)))) 0x1058A
  0x105B1 (.node (.node (.node (.node (.node .leaf 0x1058C 0x105B3 .leaf) 0x1058D 0x105B4 .leaf)
  0x1058E 0x105B5 (.node (.node .leaf 0x1058F 0x105B6 .leaf) 0x10590 0x105B7 .leaf)) 0x10591 0x105B8
  (.node (.node (.node .leaf 0x10592 0x105B9 .leaf) 0x10594 0x105BB .leaf) 0x10595 0x105BC (.node
  (.node .leaf 0x10C80 0x10CC0 .leaf) 0x10C81 0x10CC1 .leaf))) 0x10C82 0x10CC2 (.node (.node (.node
  (.node .leaf 0x10C83 0x10CC3 .leaf) 0x10C84 0x10CC4 .leaf) 0x10C85 0x10CC5 (.node (.node .leaf
  0x10C86 0x10CC6 .leaf) 0x10C87 0x10CC7 .leaf)) 0x10C88 0x10CC8 (.node (.node (.node .leaf 0x10C89
  0x10CC9 .leaf) 0x10C8A 0x10CCA .leaf) 0x10C8B 0x10CCB (.node .leaf 0x10C8C 0x10CCC .leaf)))))
  0x10C8D 0x10CCD (.node (.node (.node (.node (.node (.node .leaf 0x10C8E 0x10CCE .leaf) 0x10C8F
  0x10CCF .leaf) 0x10C90 0x10CD0 (.node (.node .leaf 0x10C91 0x10CD1 .leaf) 0x10C92 0x10CD2 .leaf))
  0x10C93 0x10CD3 (.node (.node (.node .leaf 0x10C94 0x10CD4 .leaf) 0x10C95 0x10CD5 .leaf) 0x10C96
  0x10CD6 (.node (.node .leaf 0x10C97 0x10CD7 .leaf) 0x10C98 0x10CD8 .leaf))) 0x10C99 0x10CD9 (.node
  (.node (.node (.node .leaf 0x10C9A 0x10CDA .leaf) 0x10C9B 0x10CDB .leaf) 0x10C9C 0x10CDC (.node
  (.node .leaf 0x10C9D 0x10CDD .leaf) 0x10C9E 0x10CDE .leaf)) 0x10C9F 0x10CDF (.node (.node (.node
  .leaf 0x10CA0 0x10CE0 .leaf) 0x10CA1 0x10CE1 .leaf) 0x10CA2 0x10CE2 (.node .leaf 0x10CA3 0x10CE3
  .leaf)))) 0x10CA4 0x10CE4 (.node (.node (.node (.node (.node .leaf 0x10CA5 0x10CE5 .leaf) 0x10CA6
  0x10CE6 .leaf) 0x10CA7 0x10CE7 (.node (.node .leaf 0x10CA8 0x10CE8 .leaf) 0x10CA9 0x10CE9 .leaf))
  0x10CAA 0x10CEA (.node (.node (.node .leaf 0x10CAB 0x10CEB .leaf) 0x10CAC 0x10CEC .leaf) 0x10CAD
  0x10CED (.node .leaf 0x10CAE 0x10CEE .leaf))) 0x10CAF 0x10CEF (.node (.node (.node (.node .leaf
  0x10CB0 0x10CF0 .leaf) 0x10CB1 0x10CF1 .leaf) 0x10CB2 0x10CF2 (.node (.node .leaf 0x118A0 0x118C0
  .leaf) 0x118A1 0x118C1 .leaf)) 0x118A2 0x118C2 (.node (.node (.node .leaf 0x118A3 0x118C3 .leaf)
  0x118A4 0x118C4 .leaf) 0x118A5 0x118C5 (.node .leaf 0x118A6 0x118C6 .leaf)))))) 0x118A7 0x118C7
  (.node (.node (.node (.node (.node (.node (.node .leaf 0x118A8 0x118C8 .leaf) 0x118A9 0x118C9
  .leaf) 0x118AA 0x118CA (.node (.node .leaf 0x118AB 0x118CB .leaf) 0x118AC 0x118CC .leaf)) 0x118AD
  0x118CD (.node (.node (.node .leaf 0x118AE 0x118CE .leaf) 0x118AF 0x118CF .leaf) 0x118B0 0x118D0
  (.node (.node .leaf 0x118B1 0x118D1 .leaf) 0x118B2 0x118D2 .leaf))) 0x118B3 0x118D3 (.node (.node
  (.node (.node .leaf 0x118B4 0x118D4 .leaf) 0x118B5 0x118D5 .leaf) 0x118B6 0x118D6 (.node (.node
  .leaf 0x118B7 0x118D7 .leaf) 0x118B8 0x118D8 .leaf)) 0x118B9 0x118D9 (.node (.node (.node .leaf
  0x118BA 0x118DA .leaf) 0x118BB 0x118DB .leaf) 0x118BC 0x118DC (.node .leaf 0x118BD 0x118DD
  .leaf)))) 0x118BE 0x118DE (.node (.node (.node (.node (.node .leaf 0x118BF 0x118DF .leaf) 0x16E40
  0x16E60 .leaf) 0x16E41 0x16E61 (.node (.node .leaf 0x16E42 0x16E62 .leaf) 0x16E43 0x16E63 .leaf))
  0x16E44 0x16E64 (.node (.node (.node .leaf 0x16E45 0x16E65 .leaf) 0x16E46 0x16E66 .leaf) 0x16E47
  0x16E67 (.node (.node .leaf 0x16E48 0x16E68 .leaf) 0x16E49 0x16E69 .leaf))) 0x16E4A 0x16E6A (.node
  (.node (.node (.node .leaf 0x16E4B 0x16E6B .leaf) 0x16E4C 0x16E6C .leaf) 0x16E4D 0x16E6D (.node
  (.node .leaf 0x16E4E 0x16E6E .leaf) 0x16E4F 0x16E6F .leaf)) 0x16E50 0x16E70 (.node (.node (.node
  .leaf 0x16E51 0x16E71 .leaf) 0x16E52 0x16E72 .leaf) 0x16E53 0x16E73 (.node .leaf 0x16E54 0x16E74
  .leaf))))) 0x16E55 0x16E75 (.node (.node (.node (.node (.node (.node .leaf 0x16E56 0x16E76 .leaf)
  0x16E57 0x16E77 .leaf) 0x16E58 0x16E78 (.node (.node .leaf 0x16E59 0x16E79 .leaf) 0x16E5A 0x16E7A
  .leaf)) 0x16E5B 0x16E7B (.node (.node (.node .leaf 0x16E5C 0x16E7C .leaf) 0x16E5D 0x16E7D .leaf)
  0x16E5E 0x16E7E (.node (.node .leaf 0x16E5F 0x16E7F .leaf) 0x1E900 0x1E922 .leaf))) 0x1E901
  0x1E923 (.node (.node (.node (.node .leaf 0x1E902 0x1E924 .leaf) 0x1E903 0x1E925 .leaf) 0x1E904
  0x1E926 (.node (.node .leaf 0x1E905 0x1E927 .leaf) 0x1E906 0x1E928 .leaf)) 0x1E907 0x1E929 (.node
  (.node (.node .leaf 0x1E908 0x1E92A .leaf) 0x1E909 0x1E92B .leaf) 0x1E90A 0x1E92C (.node .leaf
  0x1E90B 0x1E92D .leaf)))) 0x1E90C 0x1E92E (.node (.node (.node (.node (.node .leaf 0x1E90D 0x1E92F
  .leaf) 0x1E90E 0x1E930 .leaf) 0x1E90F 0x1E931 (.node (.node .leaf 0x1E910 0x1E932 .leaf) 0x1E911
  0x1E933 .leaf)) 0x1E912 0x1E934 (.node (.node (.node .leaf 0x1E913 0x1E935 .leaf) 0x1E914 0x1E936
  .leaf) 0x1E915 0x1E937 (.node .leaf 0x1E916 0x1E938 .leaf))) 0x1E917 0x1E939 (.node (.node (.node
  (.node .leaf 0x1E918 0x1E93A .leaf) 0x1E919 0x1E93B .leaf) 0x1E91A 0x1E93C (.node (.node .leaf
  0x1E91B 0x1E93D .leaf) 0x1E91C 0x1E93E .leaf)) 0x1E91D 0x1E93F (.node (.node (.node .leaf 0x1E91E
  0x1E940 .leaf) 0x1E91F 0x1E941 .leaf) 0x1E920 0x1E942 (.node .leaf 0x1E921 0x1E943 .leaf))))))))))

/-- The canonical code point of a character under `re.IGNORECASE`. -/
def foldCode (c : Char) : Nat := (foldTree.find c.toNat).getD c.toNat

/-- Case-insensitive character comparison (re.IGNORECASE, Unicode). -/
def charCI (a b : Char) : Bool := foldCode a == foldCode b

/-- Index of the first character of `s` matching `c` case-insensitively
and reachable from the current position without skipping a newline: the
`.*?` separator can consume anything except a newline (code point 10),
so the scan stops at the first newline it cannot match.  (A newline in
`s` is still matchable when `c` itself is a newline: the escaped literal
in the pattern matches it directly.) -/
def findIdxCI (c : Char) : List Char → Option Nat
  | [] => none
  | x :: xs =>
    if charCI c x then some 0
    else if x.toNat == 10 then none
    else (findIdxCI c xs).map (fun j => j + 1)

/-- Length of the prefix of `s` consumed by greedily embedding `pat`
into `s` (each pattern character at its first reachable occurrence,
separators never skipping a newline), or `none` when no embedding exists
from this position.  Greedy matching is complete: if the first reachable
occurrence of the head does not admit the rest, no other occurrence
reachable from the same position does. -/
def embedLen : List Char → List Char → Option Nat
  | [], _ => some 0
  | c :: pat, s =>
    match findIdxCI c s with
    | none => none
    | some j => (embedLen pat (s.drop (j + 1))).map (fun k => j + 1 + k)

/-- The position loop of `re.search`: try each start position `p` from
the left; at a start whose character matches the head of the pattern,
embed the rest greedily; on failure fall through to the next start (the
search may pass newlines between failed starts). -/
def searchFrom (c : Char) (pat2 : List Char) : List Char → Nat → Option (Nat × Nat)
  | [], _ => none
  | x :: xs, p =>
    if charCI c x then
      match embedLen pat2 xs with
      | some k => some (p, p + 1 + k)
      | none => searchFrom c pat2 xs (p + 1)
    else searchFrom c pat2 xs (p + 1)

/-- `re.search(build_regex(q), s, re.IGNORECASE)`: the leftmost match,
returned as `(match.start(), match.end())`.  The empty pattern matches
at position 0 with length 0. -/
def searchMatch (pat s : List Char) : Option (Nat × Nat) :=
  match pat with
  | [] => some (0, 0)
  | c :: pat2 => searchFrom c pat2 s 0

/-- `build_regex`: the subsequence pattern built from the query's characters. -/
def build_regex (query : String) : List Char := query.toList

/-- The score the source derives from a match: `pos_match = start + 1`,
`len_match = (end - start) + 1`, score `= 100.0 / (pos_match * len_match)`. -/
def scoreVal (p l : Nat) : ℚ := 100 / (((p : ℚ) + 1) * ((l : ℚ) + 1))

/-- `score(string, regex)` from menu_filter.py. -/
def score (string : String) (regex : List Char) : ℚ :=
  match searchMatch regex string.toList with
  | none => 0
  | some (st, en) => scoreVal st (en - st)

/-- One insertion step of the stable descending-by-score sort: `x` is
placed before the first element whose score is `≤` its own, so elements
with equal scores keep their input order. -/
def insertDesc (x : String × ℚ) : List (String × ℚ) → List (String × ℚ)
  | [] => [x]
  | y :: l => if x.2 < y.2 then y :: insertDesc x l else x :: y :: l

/-- `ranked.sort(key=lambda x: x[1], reverse=True)`: Python's sort is
stable, and a stable descending-by-key reordering is unique, so insertion
sort with `insertDesc` computes exactly the sorted list the source builds. -/
def sortDesc : List (String × ℚ) → List (String × ℚ)
  | [] => []
  | x :: l => insertDesc x (sortDesc l)

/-- `rank_list(query, items)` from menu_filter.py. -/
def rank_list (query : String) (items : List String) : List (String × ℚ) :=
  sortDesc (items.map (fun item => (item, score item (build_regex query))))

/-- `filter_list(query, items)` from menu_filter.py. -/
def filter_list (query : String) (items : List String) : List String :=
  ((rank_list query items).filter (fun p => decide (0 < p.2))).map Prod.fst

/-! ### Specification-side predicates (for comparison with the code)

These restate, independently of the implementation, what a
case-insensitive subsequence match is; the C7 theorem compares
`searchMatch`/`score` with them. -/

/-- `CISub pat s`: the characters of `pat` occur, in order, in `s`,
compared case-insensitively, with arbitrary characters in between — the
plain-subsequence reading of claim C7.  The code's compiled pattern is
stricter: its `.*?` separators cannot cross a newline (see `SepSub`),
which is exactly what the C7 counterexample exhibits. -/
inductive CISub : List Char → List Char → Prop
  | nil (s : List Char) : CISub [] s
  | cons (x : Char) {pat s : List Char} : CISub pat s → CISub pat (x :: s)
  | cons2 {c x : Char} {pat s : List Char} :
      charCI c x = true → CISub pat s → CISub (c :: pat) (x :: s)

/-- `SepSub pat s`: `pat` embeds into `s` in order, case-insensitively,
and every skipped character is not a newline — the separator discipline
of the compiled pattern (`.` without `re.DOTALL` never matches a
newline).  This governs a match from its first matched character on;
the characters before the match start are unconstrained, which
`MatchStart` reflects. -/
inductive SepSub : List Char → List Char → Prop
  | nil (s : List Char) : SepSub [] s
  | cons (x : Char) {pat s : List Char} :
      x.toNat ≠ 10 → SepSub pat s → SepSub pat (x :: s)
  | cons2 {c x : Char} {pat s : List Char} :
      charCI c x = true → SepSub pat s → SepSub (c :: pat) (x :: s)

/-- `MatchStart pat s st`: some match of the compiled pattern begins at
position `st` of `s`: the prefix before `st` is arbitrary (the search
may pass newlines), the character at `st` case-matches the head of the
pattern, and the rest embeds with newline-free separators.  (The empty
pattern matches at every position of `s`, including `s.length`.) -/
def MatchStart : List Char → List Char → Nat → Prop
  | [], s, st => st ≤ s.length
  | c :: pat2, s, st =>
      ∃ t x r, s = t ++ x :: r ∧ t.length = st ∧ charCI c x = true ∧ SepSub pat2 r

/-! ### Lemmas about the fold table and the greedy matcher -/

theorem foldTree_find_val {p : Nat → Bool} :
    ∀ {t : FoldTree}, t.allVals p = true →
      ∀ {n v : Nat}, t.find n = some v → p v = true := by
  intro t
  induction t with
  | leaf => intro _ n v h; simp [FoldTree.find] at h
  | node l k v0 r ihl ihr =>
    intro hall n v h
    have hall2 : p v0 = true ∧ l.allVals p = true ∧ r.allVals p = true := by
      simpa [FoldTree.allVals, Bool.and_eq_true, and_assoc] using hall
    by_cases hlt : n < k
    · exact ihl hall2.2.1 (by simpa [FoldTree.find, hlt] using h)
    · by_cases heq : n = k
      · have hb : (n == k) = true := beq_iff_eq.mpr heq
        have hv : v0 = v := by
          simpa [FoldTree.find, hlt, hb] using h
        rw [← hv]
        exact hall2.1
      · have hb : (n == k) = false := beq_eq_false_iff_ne.mpr heq
        exact ihr hall2.2.2 (by simpa [FoldTree.find, hlt, hb] using h)

theorem fold_ten_iff (c : Char) : foldCode c = 10 ↔ c.toNat = 10 := by
  constructor
  · intro h
    cases hf : foldTree.find c.toNat with
    | none =>
      unfold foldCode at h
      rw [hf] at h
      simpa using h
    | some v =>
      exfalso
      have hvals : foldTree.allVals (fun v2 => !(v2 == 10)) = true := by decide
      have hv := foldTree_find_val hvals hf
      unfold foldCode at h
      rw [hf] at h
      simp at h
      rw [h] at hv
      simp at hv
  · intro h
    have hF1 : foldTree.find 10 = none := by decide
    unfold foldCode
    rw [h, hF1]
    rfl

theorem charCI_eq {c x : Char} (h : charCI c x = true) : foldCode c = foldCode x := by
  unfold charCI at h
  simpa using h

theorem charCI_nl {c x : Char} (h : charCI c x = true) (hx : x.toNat = 10) :
    c.toNat = 10 :=
  (fold_ten_iff c).mp ((charCI_eq h).trans ((fold_ten_iff x).mpr hx))

theorem charCI_nl2 {c x : Char} (h : charCI c x = true) (hc : c.toNat = 10) :
    x.toNat = 10 :=
  (fold_ten_iff x).mp ((charCI_eq h).symm.trans ((fold_ten_iff c).mpr hc))

theorem findIdxCI_decomp {c : Char} :
    ∀ {s : List Char} {j : Nat}, findIdxCI c s = some j →
      ∃ t x r, s = t ++ x :: r ∧ t.length = j ∧ charCI c x = true ∧
        ∀ y ∈ t, charCI c y = false ∧ y.toNat ≠ 10 := by
  intro s
  induction s with
  | nil => intro j h; simp [findIdxCI] at h
  | cons a s2 ih =>
    intro j h
    by_cases hca : charCI c a
    · have hj : j = 0 := by simpa [findIdxCI, hca] using h.symm
      subst hj
      exact ⟨[], a, s2, rfl, rfl, hca, by intro y hy; cases hy⟩
    · by_cases ha10 : a.toNat = 10
      · have hb10 : (a.toNat == 10) = true := beq_iff_eq.mpr ha10
        simp [findIdxCI, hca, hb10] at h
      · have hb10 : (a.toNat == 10) = false := beq_eq_false_iff_ne.mpr ha10
        have h2 : (findIdxCI c s2).map (fun i => i + 1) = some j := by
          simpa [findIdxCI, hca, hb10] using h
        rw [Option.map_eq_some'] at h2
        obtain ⟨j2, hj2, rfl⟩ := h2
        obtain ⟨t, x, r, hs, htl, hcx, hpre⟩ := ih hj2
        refine ⟨a :: t, x, r, by rw [hs]; rfl, by simp [htl], hcx, ?_⟩
        intro y hy
        rcases List.mem_cons.mp hy with rfl | hy2
        · exact ⟨by simpa using hca, ha10⟩
        · exact hpre y hy2

theorem drop_len_succ {α : Type} (t : List α) (x : α) (r : List α) :
    (t ++ x :: r).drop (t.length + 1) = r := by
  have h1 : t ++ x :: r = (t ++ [x]) ++ r := by simp
  have h2 : t.length + 1 = (t ++ [x]).length := by simp
  rw [h1, h2, List.drop_left]

theorem take_len_add {α : Type} (t : List α) (l : List α) (m : Nat) :
    (t ++ l).take (t.length + m) = t ++ l.take m := by
  induction t with
  | nil => simp
  | cons a t2 ih =>
    have h : (a :: t2).length + m = (t2.length + m) + 1 := by
      simp [Nat.succ_add]
    rw [h]
    simpa using ih

theorem sepsub_append_right {pat s : List Char} (u : List Char) (h : SepSub pat s) :
    SepSub pat (s ++ u) := by
  induction h with
  | nil s => exact SepSub.nil (s ++ u)
  | cons x hx _ ih => exact SepSub.cons x hx ih
  | cons2 hc _ ih => exact SepSub.cons2 hc ih

theorem sepsub_of_take {pat s : List Char} {k : Nat} (h : SepSub pat (s.take k)) :
    SepSub pat s := by
  have h2 := sepsub_append_right (s.drop k) h
  rwa [List.take_append_drop] at h2

theorem sepsub_append_left {pat s : List Char} :
    ∀ (t : List Char), (∀ y ∈ t, y.toNat ≠ 10) → SepSub pat s →
      SepSub pat (t ++ s) := by
  intro t
  induction t with
  | nil => intro _ h; simpa using h
  | cons a t2 ih =>
    intro ht h
    exact SepSub.cons a (ht a (List.mem_cons_self a t2))
      (ih (fun y hy => ht y (List.mem_cons_of_mem a hy)) h)

theorem embedLen_sound :
    ∀ {pat s : List Char} {k : Nat}, embedLen pat s = some k →
      SepSub pat (s.take k) ∧ k ≤ s.length := by
  intro pat
  induction pat with
  | nil =>
    intro s k h
    have hk : k = 0 := by simpa [embedLen] using h.symm
    subst hk
    exact ⟨by simpa using SepSub.nil ([] : List Char), Nat.zero_le _⟩
  | cons c pat2 ih =>
    intro s k h
    cases hf : findIdxCI c s with
    | none => simp [embedLen, hf] at h
    | some j =>
      have h2 : (embedLen pat2 (s.drop (j + 1))).map (fun k2 => j + 1 + k2) = some k := by
        simpa [embedLen, hf] using h
      rw [Option.map_eq_some'] at h2
      obtain ⟨k2, hk2, rfl⟩ := h2
      obtain ⟨hsub2, hle2⟩ := ih hk2
      obtain ⟨t, x, r, hs, htl, hcx, hpre⟩ := findIdxCI_decomp hf
      have hr : s.drop (j + 1) = r := by
        rw [hs, ← htl]; exact drop_len_succ t x r
      rw [hr] at hsub2 hle2
      constructor
      · have htake : s.take (j + 1 + k2) = t ++ x :: r.take k2 := by
          rw [hs, ← htl]
          have harith : t.length + 1 + k2 = t.length + (1 + k2) := by omega
          rw [harith, take_len_add, Nat.add_comm 1 k2]
          rfl
        rw [htake]
        exact sepsub_append_left t (fun y hy => (hpre y hy).2)
          (SepSub.cons2 hcx hsub2)
      · have hlen : s.length = j + 1 + r.length := by
          rw [hs]; simp [htl]; omega
        omega

theorem embedLen_cons_isSome {c : Char} {pat2 s : List Char}
    (h : (embedLen (c :: pat2) s).isSome = true) :
    ∃ j, findIdxCI c s = some j ∧ (embedLen pat2 (s.drop (j + 1))).isSome = true := by
  cases hf : findIdxCI c s with
  | none => simp [embedLen, hf] at h
  | some j =>
    refine ⟨j, rfl, ?_⟩
    simpa [embedLen, hf] using h

theorem embedLen_complete :
    ∀ (s pat : List Char), SepSub pat s → (embedLen pat s).isSome = true := by
  intro s
  induction s with
  | nil =>
    intro pat h
    cases h with
    | nil => simp [embedLen]
  | cons a s2 ih =>
    intro pat h
    cases pat with
    | nil => simp [embedLen]
    | cons c pat2 =>
      cases h with
      | cons _ ha10 h2 =>
        obtain ⟨j2, hf2, hrest⟩ := embedLen_cons_isSome (ih _ h2)
        by_cases hca : charCI c a
        · obtain ⟨k, hk⟩ := Option.isSome_iff_exists.mp hrest
          have hdropsub : SepSub pat2 (s2.drop (j2 + 1)) :=
            sepsub_of_take (embedLen_sound hk).1
          obtain ⟨t, x2, r, hs2, htl, hcx2, hpre⟩ := findIdxCI_decomp hf2
          have hx2 : x2.toNat ≠ 10 := by
            intro h10
            exact ha10 (charCI_nl2 hca (charCI_nl hcx2 h10))
          have htk : s2.take (j2 + 1) = t ++ [x2] := by
            rw [hs2, ← htl, take_len_add]
            rfl
          have hprefix : ∀ y ∈ s2.take (j2 + 1), y.toNat ≠ 10 := by
            rw [htk]
            intro y hy
            rcases List.mem_append.mp hy with hy1 | hy2
            · exact (hpre y hy1).2
            · rw [List.mem_singleton.mp hy2]
              exact hx2
          have hsub2 : SepSub pat2 s2 := by
            have h3 := sepsub_append_left (s2.take (j2 + 1)) hprefix hdropsub
            rwa [List.take_append_drop] at h3
          have h4 := ih _ hsub2
          simpa [embedLen, findIdxCI, hca] using h4
        · have hb10 : (a.toNat == 10) = false := beq_eq_false_iff_ne.mpr ha10
          have h5 : (embedLen pat2 (s2.drop (j2 + 1))).isSome = true := hrest
          simpa [embedLen, findIdxCI, hca, hb10, hf2] using h5
      | cons2 hcx h2 =>
        have h4 := ih _ h2
        simpa [embedLen, findIdxCI, hcx] using h4

theorem searchFrom_some {c : Char} {pat2 : List Char} :
    ∀ {s0 : List Char} {p st en : Nat},
      searchFrom c pat2 s0 p = some (st, en) →
      ∃ t x r k, s0 = t ++ x :: r ∧ st = p + t.length ∧ charCI c x = true ∧
        embedLen pat2 r = some k ∧ en = st + 1 + k ∧
        ∀ t2 x2 r2, s0 = t2 ++ x2 :: r2 → t2.length < t.length →
          charCI c x2 = true → embedLen pat2 r2 = none := by
  intro s0
  induction s0 with
  | nil => intro p st en h; simp [searchFrom] at h
  | cons x xs ih =>
    intro p st en h
    by_cases hcx : charCI c x
    · cases hke : embedLen pat2 xs with
      | some k =>
        have h2 : p = st ∧ p + 1 + k = en := by
          simpa [searchFrom, hcx, hke] using h
        refine ⟨[], x, xs, k, rfl, by simpa using h2.1.symm, hcx, hke, by omega, ?_⟩
        intro t2 x2 r2 _ hlt _
        simp at hlt
      | none =>
        have h3 : searchFrom c pat2 xs (p + 1) = some (st, en) := by
          simpa [searchFrom, hcx, hke] using h
        obtain ⟨t, x3, r, k, hs0, hst, hc3, hk3, hen, hmin⟩ := ih h3
        refine ⟨x :: t, x3, r, k, by rw [hs0]; rfl, ?_, hc3, hk3, hen, ?_⟩
        · simp only [List.length_cons]
          omega
        · intro t2 x2 r2 heq hlt hc2
          cases t2 with
          | nil =>
            have h6 : x :: xs = x2 :: r2 := by simpa using heq
            injection h6 with h7 h8
            rw [← h8]
            exact hke
          | cons y t3 =>
            have heq2 : x = y ∧ xs = t3 ++ x2 :: r2 := by simpa using heq
            exact hmin t3 x2 r2 heq2.2 (by simpa using hlt) hc2
    · have h3 : searchFrom c pat2 xs (p + 1) = some (st, en) := by
        simpa [searchFrom, hcx] using h
      obtain ⟨t, x3, r, k, hs0, hst, hc3, hk3, hen, hmin⟩ := ih h3
      refine ⟨x :: t, x3, r, k, by rw [hs0]; rfl, ?_, hc3, hk3, hen, ?_⟩
      · simp only [List.length_cons]
        omega
      · intro t2 x2 r2 heq hlt hc2
        cases t2 with
        | nil =>
          have h6 : x :: xs = x2 :: r2 := by simpa using heq
          injection h6 with h7 h8
          exact absurd (h7 ▸ hc2) hcx
        | cons y t3 =>
          have heq2 : x = y ∧ xs = t3 ++ x2 :: r2 := by simpa using heq
          exact hmin t3 x2 r2 heq2.2 (by simpa using hlt) hc2

theorem searchFrom_none {c : Char} {pat2 : List Char} :
    ∀ {s0 : List Char} {p : Nat}, searchFrom c pat2 s0 p = none →
      ∀ t x r, s0 = t ++ x :: r → charCI c x = true → embedLen pat2 r = none := by
  intro s0
  induction s0 with
  | nil =>
    intro p _ t x r heq _
    exact absurd heq (by simp)
  | cons a xs ih =>
    intro p h t x r heq hcx2
    by_cases hca : charCI c a
    · cases hke : embedLen pat2 xs with
      | some k => simp [searchFrom, hca, hke] at h
      | none =>
        have h3 : searchFrom c pat2 xs (p + 1) = none := by
          simpa [searchFrom, hca, hke] using h
        cases t with
        | nil =>
          have h6 : a :: xs = x :: r := by simpa using heq
          injection h6 with h7 h8
          rw [← h8]
          exact hke
        | cons y t3 =>
          have heq2 : a = y ∧ xs = t3 ++ x :: r := by simpa using heq
          exact ih h3 t3 x r heq2.2 hcx2
    · have h3 : searchFrom c pat2 xs (p + 1) = none := by
        simpa [searchFrom, hca] using h
      cases t with
      | nil =>
        have h6 : a :: xs = x :: r := by simpa using heq
        injection h6 with h7 h8
        exact absurd (h7 ▸ hcx2) hca
      | cons y t3 =>
        have heq2 : a = y ∧ xs = t3 ++ x :: r := by simpa using heq
        exact ih h3 t3 x r heq2.2 hcx2

theorem searchMatch_none_iff (pat s : List Char) :
    searchMatch pat s = none ↔ ¬ ∃ st, MatchStart pat s st := by
  cases pat with
  | nil =>
    constructor
    · intro h
      exact absurd h (by simp [searchMatch])
    · intro h
      exact absurd ⟨0, Nat.zero_le s.length⟩ h
  | cons c pat2 =>
    constructor
    · intro h hex
      obtain ⟨st, t, x, r, hs, htl, hcx, hsub⟩ := hex
      have hnone := searchFrom_none (p := 0) (by simpa [searchMatch] using h) t x r hs hcx
      have hsome := embedLen_complete r pat2 hsub
      rw [hnone] at hsome
      simp at hsome
    · intro h
      cases hm : searchMatch (c :: pat2) s with
      | none => rfl
      | some m =>
        exfalso
        obtain ⟨st, en⟩ := m
        obtain ⟨t, x, r, k, hs0, hst, hc3, hk3, _, _⟩ :=
          searchFrom_some (by simpa [searchMatch] using hm)
        exact h ⟨st, t, x, r, hs0, by omega, hc3,
          sepsub_of_take (embedLen_sound hk3).1⟩

theorem searchMatch_spec {pat s : List Char} {st en : Nat}
    (h : searchMatch pat s = some (st, en)) :
    en ≤ s.length ∧ st ≤ en ∧
    SepSub pat ((s.drop st).take (en - st)) ∧
    MatchStart pat s st ∧
    ∀ st2, MatchStart pat s st2 → st ≤ st2 := by
  cases pat with
  | nil =>
    simp only [searchMatch, Option.some.injEq, Prod.mk.injEq] at h
    rw [← h.1, ← h.2]
    refine ⟨Nat.zero_le _, le_refl 0, ?_, ?_, fun st2 _ => Nat.zero_le st2⟩
    · simpa using SepSub.nil ([] : List Char)
    · exact Nat.zero_le s.length
  | cons c pat2 =>
    have h3 : searchFrom c pat2 s 0 = some (st, en) := by
      simpa [searchMatch] using h
    obtain ⟨t, x, r, k, hs0, hst, hcx, hk, hen, hmin⟩ := searchFrom_some h3
    have hstl : st = t.length := by omega
    have hsound := embedLen_sound hk
    have hdrop : s.drop st = x :: r := by
      rw [hs0, hstl]
      exact List.drop_left t (x :: r)
    have hlen : s.length = t.length + 1 + r.length := by
      rw [hs0]
      simp
      omega
    refine ⟨by omega, by omega, ?_, ?_, ?_⟩
    · have hw : en - st = k + 1 := by omega
      rw [hdrop, hw]
      exact SepSub.cons2 hcx hsound.1
    · exact ⟨t, x, r, hs0, hstl.symm, hcx, sepsub_of_take hsound.1⟩
    · intro st2 hm
      obtain ⟨t2, x2, r2, hs2, htl2, hc2, hsub2⟩ := hm
      by_contra hlt
      push_neg at hlt
      have hnone := hmin t2 x2 r2 hs2 (by omega) hc2
      have hsome := embedLen_complete r2 pat2 hsub2
      rw [hnone] at hsome
      simp at hsome


theorem scoreVal_pos (p l : Nat) : 0 < scoreVal p l := by
  unfold scoreVal
  positivity

theorem scoreVal_lt {p1 l1 p2 l2 : Nat}
    (h : (p1 + 1) * (l1 + 1) < (p2 + 1) * (l2 + 1)) :
    scoreVal p2 l2 < scoreVal p1 l1 := by
  unfold scoreVal
  have h1 : (0 : ℚ) < ((p1 : ℚ) + 1) * ((l1 : ℚ) + 1) := by positivity
  have h2 : ((p1 : ℚ) + 1) * ((l1 : ℚ) + 1) < ((p2 : ℚ) + 1) * ((l2 : ℚ) + 1) := by
    exact_mod_cast h
  exact div_lt_div_of_pos_left (by norm_num) h1 h2

theorem scoreVal_le_100 (p l : Nat) : scoreVal p l ≤ 100 := by
  have hp : (0 : ℚ) ≤ (p : ℚ) := Nat.cast_nonneg p
  have hl : (0 : ℚ) ≤ (l : ℚ) := Nat.cast_nonneg l
  have hd : (1 : ℚ) ≤ ((p : ℚ) + 1) * ((l : ℚ) + 1) := by nlinarith
  exact div_le_self (by norm_num) hd

/-! ### Lemmas about the stable descending sort -/

theorem insertDesc_perm (x : String × ℚ) (l : List (String × ℚ)) :
    (insertDesc x l).Perm (x :: l) := by
  induction l with
  | nil => exact List.Perm.refl _
  | cons y l2 ih =>
    by_cases hlt : x.2 < y.2
    · simp only [insertDesc, if_pos hlt]
      exact (ih.cons y).trans (List.Perm.swap x y l2)
    · simp only [insertDesc, if_neg hlt]
      exact List.Perm.refl _

theorem sortDesc_perm (l : List (String × ℚ)) : (sortDesc l).Perm l := by
  induction l with
  | nil => exact List.Perm.refl _
  | cons x l2 ih => exact (insertDesc_perm x (sortDesc l2)).trans (ih.cons x)

theorem mem_insertDesc {x y : String × ℚ} {l : List (String × ℚ)} :
    y ∈ insertDesc x l ↔ y = x ∨ y ∈ l := by
  rw [(insertDesc_perm x l).mem_iff, List.mem_cons]

theorem insertDesc_sorted {x : String × ℚ} {l : List (String × ℚ)}
    (h : l.Pairwise (fun a b => b.2 ≤ a.2)) :
    (insertDesc x l).Pairwise (fun a b => b.2 ≤ a.2) := by
  induction l with
  | nil => simp [insertDesc]
  | cons y l2 ih =>
    rw [List.pairwise_cons] at h
    obtain ⟨hy, h2⟩ := h
    by_cases hlt : x.2 < y.2
    · simp only [insertDesc, if_pos hlt]
      rw [List.pairwise_cons]
      refine ⟨?_, ih h2⟩
      intro z hz
      rcases mem_insertDesc.mp hz with rfl | hz2
      · exact le_of_lt hlt
      · exact hy z hz2
    · simp only [insertDesc, if_neg hlt]
      rw [List.pairwise_cons]
      refine ⟨?_, List.pairwise_cons.mpr ⟨hy, h2⟩⟩
      intro z hz
      rcases List.mem_cons.mp hz with rfl | hz2
      · exact le_of_not_lt hlt
      · exact le_trans (hy z hz2) (le_of_not_lt hlt)

theorem sortDesc_sorted (l : List (String × ℚ)) :
    (sortDesc l).Pairwise (fun a b => b.2 ≤ a.2) := by
  induction l with
  | nil => simp [sortDesc]
  | cons x l2 ih => exact insertDesc_sorted ih

/-- Stability of one insertion step, phrased through filtering on a score
value: the inserted element lands after every earlier element with the
same score and before no element with a larger one. -/
theorem insertDesc_filter (x : String × ℚ) (l : List (String × ℚ)) (v : ℚ) :
    (insertDesc x l).filter (fun p => decide (p.2 = v)) =
      if x.2 = v then x :: l.filter (fun p => decide (p.2 = v))
      else l.filter (fun p => decide (p.2 = v)) := by
  induction l with
  | nil => by_cases hx : x.2 = v <;> simp [insertDesc, hx]
  | cons y l2 ih =>
    by_cases hlt : x.2 < y.2
    · simp only [insertDesc, if_pos hlt]
      by_cases hy : y.2 = v
      · have hx : ¬ x.2 = v := by
          intro hx
          rw [hx, hy] at hlt
          exact lt_irrefl v hlt
        simp [List.filter_cons, hy, hx, ih]
      · by_cases hx : x.2 = v <;> simp [List.filter_cons, hy, hx, ih]
    · simp only [insertDesc, if_neg hlt]
      by_cases hx : x.2 = v <;> by_cases hy : y.2 = v <;>
        simp [List.filter_cons, hx, hy]

theorem sortDesc_filter (l : List (String × ℚ)) (v : ℚ) :
    (sortDesc l).filter (fun p => decide (p.2 = v)) =
      l.filter (fun p => decide (p.2 = v)) := by
  induction l with
  | nil => rfl
  | cons x l2 ih =>
    rw [show sortDesc (x :: l2) = insertDesc x (sortDesc l2) from rfl, insertDesc_filter]
    by_cases hx : x.2 = v <;> simp [List.filter_cons, hx, ih]

theorem filter_map_general {α β : Type} (f : α → β) (p : β → Bool) (l : List α) :
    (l.map f).filter p = (l.filter (fun a => p (f a))).map f := by
  induction l with
  | nil => rfl
  | cons x l2 ih => by_cases hx : p (f x) <;> simp [List.filter_cons, hx, ih]

theorem filter_filter_and {α : Type} (p q : α → Bool) (l : List α) :
    (l.filter p).filter q = l.filter (fun a => p a && q a) := by
  induction l with
  | nil => rfl
  | cons x l2 ih =>
    by_cases hp : p x <;> by_cases hq : q x <;> simp [List.filter_cons, hp, hq, ih]

theorem filter_congr_mem {α : Type} {p q : α → Bool} :
    ∀ {l : List α}, (∀ a ∈ l, p a = q a) → l.filter p = l.filter q := by
  intro l
  induction l with
  | nil => intro _; rfl
  | cons x l2 ih =>
    intro h
    have hx := h x (List.mem_cons_self x l2)
    have h2 : ∀ a ∈ l2, p a = q a := fun a ha => h a (List.mem_cons_of_mem x ha)
    by_cases hpx : p x
    · simp [List.filter_cons, hpx, hx ▸ hpx, ih h2]
    · simp [List.filter_cons, hpx, hx ▸ hpx, ih h2]

theorem rank_list_snd {q : String} {L : List String} {p : String × ℚ}
    (hp : p ∈ rank_list q L) : p.2 = score p.1 (build_regex q) := by
  have hmem : p ∈ L.map (fun item => (item, score item (build_regex q))) :=
    (sortDesc_perm _).mem_iff.mp hp
  obtain ⟨it, _, rfl⟩ := List.mem_map.mp hmem
  rfl

theorem insertDesc_of_all_le (x : String × ℚ) (l : List (String × ℚ))
    (h : ∀ p ∈ l, p.2 ≤ x.2) : insertDesc x l = x :: l := by
  cases l with
  | nil => rfl
  | cons y l2 =>
    have hy : ¬ x.2 < y.2 := not_lt.mpr (h y (List.mem_cons_self y l2))
    simp [insertDesc, hy]

theorem sortDesc_of_const (l : List (String × ℚ)) (c : ℚ)
    (h : ∀ p ∈ l, p.2 = c) : sortDesc l = l := by
  induction l with
  | nil => rfl
  | cons x l2 ih =>
    have h2 : ∀ p ∈ l2, p.2 = c := fun p hp => h p (List.mem_cons_of_mem x hp)
    rw [show sortDesc (x :: l2) = insertDesc x (sortDesc l2) from rfl, ih h2]
    exact insertDesc_of_all_le x l2 (fun p hp => by
      rw [h2 p hp, h x (List.mem_cons_self x l2)])

theorem score_empty (s : String) : score s (build_regex "") = 100 := by
  show scoreVal 0 0 = 100
  unfold scoreVal
  norm_num

/-! ## Claim theorems about menu_filter.py -/

/-- C7 (as stated, refuted): "ab" is a plain case-insensitive
subsequence of "a\nb", so under the claim the leftmost subsequence
match (start 0, end 3) would score 100/((0+1)*(3+1)) = 25; but the
compiled pattern separates the query characters with `.*?`, and `.`
(without re.DOTALL) cannot match the newline, so the code finds no
match and scores 0. -/
theorem C7_plain_subsequence_refuted :
    CISub (build_regex "ab") ("a\nb").toList ∧
    score "a\nb" (build_regex "ab") = 0 ∧
    scoreVal 0 3 = 25 := by
  refine ⟨?_, by decide, by unfold scoreVal; norm_num⟩
  have hab : charCI (Char.ofNat 97) (Char.ofNat 97) = true := by decide
  have hbb : charCI (Char.ofNat 98) (Char.ofNat 98) = true := by decide
  exact CISub.cons2 hab (CISub.cons (Char.ofNat 10) (CISub.cons2 hbb (CISub.nil [])))

/-- C7 (amended): the score is computed from the first (leftmost) match
of the compiled pattern: a case-insensitive (per re.IGNORECASE's Unicode
folding) subsequence embedding of the query's characters whose
separator runs contain no newline.  If no such match exists the score is
0, otherwise the score equals `100 / ((start + 1) * (length + 1))`, so
earlier and tighter matches score strictly higher. -/
theorem C7_score_first_match (q s : String) :
    (searchMatch (build_regex q) s.toList = none ↔
      ¬ ∃ st, MatchStart (build_regex q) s.toList st) ∧
    (searchMatch (build_regex q) s.toList = none → score s (build_regex q) = 0) ∧
    (∀ st en, searchMatch (build_regex q) s.toList = some (st, en) →
      score s (build_regex q) = scoreVal st (en - st) ∧
      0 < score s (build_regex q) ∧
      en ≤ s.toList.length ∧
      SepSub (build_regex q) ((s.toList.drop st).take (en - st)) ∧
      MatchStart (build_regex q) s.toList st ∧
      ∀ st2, MatchStart (build_regex q) s.toList st2 → st ≤ st2) ∧
    (∀ p1 l1 p2 l2 : Nat, (p1 + 1) * (l1 + 1) < (p2 + 1) * (l2 + 1) →
      scoreVal p2 l2 < scoreVal p1 l1) := by
  refine ⟨searchMatch_none_iff _ _, ?_, ?_, fun p1 l1 p2 l2 h => scoreVal_lt h⟩
  · intro h
    have h2 : searchMatch (build_regex q) s.data = none := h
    simp [score, h2]
  · intro st en h
    have h2 : searchMatch (build_regex q) s.data = some (st, en) := h
    have hformula : score s (build_regex q) = scoreVal st (en - st) := by
      simp [score, h2]
    have hspec := searchMatch_spec h
    exact ⟨hformula, hformula ▸ scoreVal_pos st (en - st), hspec.1,
      hspec.2.2.1, hspec.2.2.2.1, hspec.2.2.2.2⟩

/-- Witness for C7 at query "é" and candidate "É": the Unicode case
equivalence of re.IGNORECASE matches them, the match is (0, 1), and the
score is scoreVal 0 1 = 50, as the engine computes. -/
theorem C7_score_first_match_witness :
    score "É" (build_regex "é") = scoreVal 0 1 ∧
    0 < score "É" (build_regex "é") := by
  have h := (C7_score_first_match "é" "É").2.2.1 0 1 (by decide)
  exact ⟨h.1, h.2.1⟩

/-- C8: `filter_list` returns exactly the items of `rank_list` with a
strictly positive score, in the (descending-score) order `rank_list`
produces, and `rank_list` is a permutation of the scored input (so no
item appears or disappears).  Determinism for equal scores is inherent:
both functions are pure, and C10 proves the stronger stable-tie property. -/
theorem C8_filter_rank (q : String) (L : List String) :
    filter_list q L =
      ((rank_list q L).filter (fun p => decide (0 < p.2))).map Prod.fst ∧
    (rank_list q L).Pairwise (fun a b => b.2 ≤ a.2) ∧
    (rank_list q L).Perm (L.map (fun item => (item, score item (build_regex q)))) :=
  ⟨rfl, sortDesc_sorted _, sortDesc_perm _⟩

/-- C9: with an empty query every item scores 100 (a match at position 0
of minimal length, and 100 is the maximal possible score), so
`filter_list "" L` returns `L` itself. -/
theorem C9_empty_query_keeps_all (L : List String) :
    filter_list "" L = L ∧
    (∀ item : String, score item (build_regex "") = 100) ∧
    (∀ p l : Nat, scoreVal p l ≤ 100) := by
  refine ⟨?_, score_empty, scoreVal_le_100⟩
  unfold filter_list rank_list
  rw [sortDesc_of_const _ 100 ?hconst]
  case hconst =>
    intro p hp
    obtain ⟨it, _, rfl⟩ := List.mem_map.mp hp
    exact score_empty it
  rw [List.filter_eq_self.mpr ?hall]
  case hall =>
    intro p hp
    obtain ⟨it, _, rfl⟩ := List.mem_map.mp hp
    simp [score_empty it]
  simp [List.map_map]
  exact List.map_id L

/-- C10: both `rank_list` and `filter_list` keep items of equal score in
their input order — the sort is stable, which is strictly stronger than
the determinism the specification asks for. -/
theorem C10_stable_ties (q : String) (L : List String) (v : ℚ) :
    (rank_list q L).filter (fun p => decide (p.2 = v)) =
      (L.map (fun item => (item, score item (build_regex q)))).filter
        (fun p => decide (p.2 = v)) ∧
    (0 < v →
      (filter_list q L).filter (fun item => decide (score item (build_regex q) = v)) =
        L.filter (fun item => decide (score item (build_regex q) = v))) := by
  constructor
  · exact sortDesc_filter _ v
  · intro hv
    have hcong : ∀ p ∈ rank_list q L,
        (decide (0 < p.2) && decide (score p.1 (build_regex q) = v)) =
          decide (p.2 = v) := by
      intro p hp
      rw [← rank_list_snd hp]
      by_cases hpv : p.2 = v
      · simp [hpv, hv]
      · simp [hpv]
    unfold filter_list
    rw [filter_map_general, filter_filter_and, filter_congr_mem hcong]
    rw [show rank_list q L =
        sortDesc (L.map (fun item => (item, score item (build_regex q)))) from rfl]
    rw [sortDesc_filter, filter_map_general]
    simp [List.map_map]
    exact List.map_id _

/-- Witness for C10 at query "", list ["a"], score value 100. -/
theorem C10_stable_ties_witness :
    (filter_list "" ["a"]).filter
        (fun item => decide (score item (build_regex "") = 100)) =
      (["a"] : List String).filter
        (fun item => decide (score item (build_regex "") = 100)) :=
  (C10_stable_ties "" ["a"] 100).2 (by norm_num)

/-! ## command_palette.py -/

/-- The status string a work function returns: "sub-command" or "completed". -/
inductive Status
  | subCommand
  | completed
deriving DecidableEq

/-- The observable behaviour of one call of a work function: the
intermediate values it emits on the progress signal (in order), and
either its returned `(status, results)` pair or an uncaught exception
(`Except.error`; `Worker.run` has no try/except around `self.cmd_fn`). -/
structure WorkOutput where
  progressCalls : List Nat
  outcome : Except Unit (Status × List String)

/-- A registered command's work function, closed over the kwargs stored
with it at registration time; it receives the breadcrumbs. -/
def CmdFn := List String → WorkOutput

/-- A Qt signal emission a worker can perform. -/
inductive Emission
  | progress (v : Nat)
  | result (status : Status) (res : List String)
deriving DecidableEq

/-- The state of the two signal connections and of the worker's
`cancelled` flag, as seen at each emission instant of one run.
Intermediate progress call `j` happens at instant `j`; the final
`progress(100)`/`result` pair happens at instant `progressCalls.length`.
`cancelledAtCheck` is the value `Worker.run` reads from
`self.cancelled` after the work function returns. -/
structure DeliveryEnv where
  progressConnectedAt : Nat → Bool
  resultConnectedAt : Nat → Bool
  cancelledAtCheck : Bool

/-- The intermediate progress notifications actually delivered to the
palette's handler: the work function emits them unconditionally (the
source checks no flag there), so each is delivered exactly when the
progress signal is still connected at its instant. -/
def interDelivered (env : DeliveryEnv) (calls : List Nat) : List Emission :=
  ((calls.enum).filter (fun p => env.progressConnectedAt p.1)).map
    (fun p => Emission.progress p.2)

/-- `Worker.run` together with signal delivery: the work function runs
(its intermediate progress emissions are delivered whenever connected);
if it raises, the exception propagates out of `run` and nothing more is
emitted; otherwise the single `if not self.cancelled:` guards the final
`progress.emit(100)` and `result.emit(status, result)`, each delivered
only if the corresponding signal is still connected. -/
def run_delivered (out : WorkOutput) (env : DeliveryEnv) : List Emission :=
  let inter := interDelivered env out.progressCalls
  match out.outcome with
  | Except.error _ => inter
  | Except.ok (st, r) =>
    if env.cancelledAtCheck then inter
    else inter
      ++ (if env.progressConnectedAt out.progressCalls.length
          then [Emission.progress 100] else [])
      ++ (if env.resultConnectedAt out.progressCalls.length
          then [Emission.result st r] else [])

/-- One pass of
`for worker in self.old_workers: if worker.isFinished(): self.old_workers.remove(worker)`
with Python's exact iterator semantics: the iterator index advances
after each yielded element even when the body removes that element
(shifting the remainder left), so the element after a removed one is
skipped.  `fuel` only bounds the iteration count; the index grows by one
per step and the list never grows, so `l.length + 1` steps always
suffice. -/
def scrubGo {α : Type} [BEq α] (isFin : α → Bool) :
    Nat → List α → Nat → List α
  | 0, l, _ => l
  | fuel + 1, l, j =>
    if h : j < l.length then
      let x := l.get ⟨j, h⟩
      scrubGo isFin fuel (if isFin x then l.erase x else l) (j + 1)
    else l

/-- The whole scrub loop from `run_chosen_item`. -/
def pythonScrub {α : Type} [BEq α] (isFin : α → Bool) (l : List α) : List α :=
  scrubGo isFin (l.length + 1) l 0

/-- A worker thread handle as the controller sees it: an id standing in
for Python object identity, the breadcrumbs it was constructed with, its
`cancelled` flag, and whether its progress/result signals are connected
to the palette's handlers.  The work function and kwargs it also carries
are modelled by `WorkOutput`/`run_delivered` on the execution side. -/
structure Worker where
  wid : Nat
  breadcrumbs : List String
  cancelled : Bool
  progConn : Bool
  resConn : Bool
deriving BEq, DecidableEq

/-- The palette state the claims are about.  `commands` and
`commands_mru` model the insertion-ordered Python dicts; `displayed` is
the string list backing the list-view model.  Presentation-only state
(query text, selection index, widget geometry) is omitted. -/
structure PaletteState where
  commands : List (String × CmdFn)
  commands_mru : List (String × List String)
  breadcrumbs : List String
  current_items : List String
  displayed : List String
  bc_label : String
  visible : Bool
  worker : Option Worker
  old_workers : List Worker
  nextId : Nat

/-- Dict assignment `d[k] = v`: replaces the value in place when the key
exists (Python dicts keep the original insertion position) or appends. -/
def setAssoc {β : Type} : List (String × β) → String → β → List (String × β)
  | [], k, v => [(k, v)]
  | (k2, v2) :: rest, k, v =>
    if k2 == k then (k, v) :: rest else (k2, v2) :: setAssoc rest k v

/-- The removal effect of dict `pop(k)`. -/
def removeAssoc {β : Type} : List (String × β) → String → List (String × β)
  | [], _ => []
  | (k2, v2) :: rest, k =>
    if k2 == k then rest else (k2, v2) :: removeAssoc rest k

/-- Thread-state facts the controller consults: whether the worker being
archived is still running (`isRunning()`), and which old workers have
finished (`isFinished()`), at the moment of the call. -/
structure ExecEnv where
  isRunning : Bool
  finishedIds : Nat → Bool

/-- `CommandPalette.archive_worker`: if a worker exists, set its
cancelled flag, disconnect both signals, keep it in `old_workers` when
it is still running, and clear the `worker` slot. -/
def archive_worker (running : Bool) (s : PaletteState) : PaletteState :=
  match s.worker with
  | none => s
  | some w =>
    let w2 : Worker :=
      { w with cancelled := true, progConn := false, resConn := false }
    { s with
      worker := none
      old_workers := if running then s.old_workers ++ [w2] else s.old_workers }

/-- `CommandPalette.run_chosen_item`: read `cmd_name = breadcrumbs[0]`;
at depth 1 consume (pop) the MRU entry for it, replacing the breadcrumbs
with the saved path when one exists; look the command up; archive the
current worker; scrub finished old workers; create, connect and start a
new worker on the (possibly replaced) breadcrumbs.  `none` models an
uncaught Python exception (IndexError on `breadcrumbs[0]`, KeyError on
`commands[cmd_name]`). -/
def run_chosen_item (env : ExecEnv) (s : PaletteState) : Option PaletteState :=
  match s.breadcrumbs.head? with
  | none => none
  | some cmd_name =>
    let bcmru :=
      if s.breadcrumbs.length == 1 then
        match s.commands_mru.lookup cmd_name with
        | some saved => (saved, removeAssoc s.commands_mru cmd_name)
        | none => (s.breadcrumbs, s.commands_mru)
      else (s.breadcrumbs, s.commands_mru)
    match s.commands.lookup cmd_name with
    | none => none
    | some _ =>
      let s1 := archive_worker env.isRunning
        { s with breadcrumbs := bcmru.1, commands_mru := bcmru.2 }
      let s2 := { s1 with
        old_workers := pythonScrub (fun w => env.finishedIds w.wid) s1.old_workers }
      some { s2 with
        worker := some { wid := s2.nextId, breadcrumbs := bcmru.1,
                         cancelled := false, progConn := true, resConn := true }
        nextId := s2.nextId + 1 }

/-- `CommandPalette.handle_item_chosen` with a (non-None) chosen item:
clear the query, append the item to the breadcrumbs, run it. -/
def handle_item_chosen (env : ExecEnv) (item : String) (s : PaletteState) :
    Option PaletteState :=
  run_chosen_item env { s with breadcrumbs := s.breadcrumbs ++ [item] }

/-- `CommandPalette.hide` (also what `keyPressEvent` runs on Escape):
reset the displayed list to the registry's command names
(`setStringList(self.commands)` iterates the dict, i.e. its keys), empty
the breadcrumbs, hide the widget.  It does not touch `self.worker`. -/
def hide (s : PaletteState) : PaletteState :=
  { s with
    displayed := s.commands.map Prod.fst
    breadcrumbs := []
    visible := false }

/-- `CommandPalette.show`: clear the label, repopulate
`current_items` and the model from the registry's names, show the
widget.  (Named `show_palette` because `show` is a Lean keyword.) -/
def show_palette (s : PaletteState) : PaletteState :=
  { s with
    bc_label := ""
    current_items := s.commands.map Prod.fst
    displayed := s.commands.map Prod.fst
    visible := true }

/-- `CommandPalette.handle_result_signal`: restore the breadcrumb label;
on "sub-command" display the results; on "completed" save
`breadcrumbs[:-1]` in the MRU table under `breadcrumbs[0]` and hide.
`none` models the IndexError that `breadcrumbs[0]` raises when the
breadcrumbs are empty. -/
def handle_result_signal (status : Status) (results : List String)
    (s : PaletteState) : Option PaletteState :=
  let s1 := { s with bc_label := String.intercalate " > " s.breadcrumbs }
  match status with
  | Status.subCommand =>
    some { s1 with current_items := results, displayed := results }
  | Status.completed =>
    match s1.breadcrumbs.head? with
    | none => none
    | some c0 =>
      some (hide { s1 with
        commands_mru := setAssoc s1.commands_mru c0 s1.breadcrumbs.dropLast })

/-- `CommandPalette.add_command` (the kwargs are folded into the stored
function). -/
def add_command (command_name : String) (command_fn : CmdFn)
    (s : PaletteState) : PaletteState :=
  { s with commands := setAssoc s.commands command_name command_fn }

/-- The palette state `__init__` builds: everything empty, no worker. -/
def initState : PaletteState :=
  { commands := [], commands_mru := [], breadcrumbs := [], current_items := []
    displayed := [], bc_label := "", visible := false, worker := none
    old_workers := [], nextId := 0 }

/-! ### Association-list lemmas (Python dict semantics) -/

theorem lookup_eq_none_of_not_mem_keys {β : Type} {k : String} :
    ∀ {l : List (String × β)}, k ∉ l.map Prod.fst → l.lookup k = none := by
  intro l
  induction l with
  | nil => intro _; rfl
  | cons kv rest ih =>
    intro h
    obtain ⟨k2, v2⟩ := kv
    rw [List.map_cons, List.mem_cons] at h
    push_neg at h
    have hb : (k == k2) = false := beq_eq_false_iff_ne.mpr h.1
    have hstep : List.lookup k ((k2, v2) :: rest) = List.lookup k rest := by
      simp [List.lookup, hb]
    rw [hstep]
    exact ih h.2

theorem lookup_removeAssoc_self {β : Type} {k : String} :
    ∀ {l : List (String × β)}, (l.map Prod.fst).Nodup →
      (removeAssoc l k).lookup k = none := by
  intro l
  induction l with
  | nil => intro _; rfl
  | cons kv rest ih =>
    intro hnd
    obtain ⟨k2, v2⟩ := kv
    rw [List.map_cons, List.nodup_cons] at hnd
    obtain ⟨hk2, hrest⟩ := hnd
    by_cases he : k2 = k
    · subst he
      simp only [removeAssoc, beq_self_eq_true, if_pos rfl]
      exact lookup_eq_none_of_not_mem_keys hk2
    · have hb : (k2 == k) = false := beq_eq_false_iff_ne.mpr he
      have hb2 : (k == k2) = false := beq_eq_false_iff_ne.mpr (Ne.symm he)
      have hstep : removeAssoc ((k2, v2) :: rest) k = (k2, v2) :: removeAssoc rest k := by
        simp [removeAssoc, hb]
      have hstep2 : List.lookup k ((k2, v2) :: removeAssoc rest k) =
          List.lookup k (removeAssoc rest k) := by
        simp [List.lookup, hb2]
      rw [hstep, hstep2]
      exact ih hrest

theorem lookup_setAssoc_self {β : Type} (k : String) (v : β) :
    ∀ (l : List (String × β)), (setAssoc l k v).lookup k = some v := by
  intro l
  induction l with
  | nil => simp [setAssoc, List.lookup]
  | cons kv rest ih =>
    obtain ⟨k2, v2⟩ := kv
    by_cases he : k2 = k
    · simp [setAssoc, he, List.lookup]
    · have hb : (k2 == k) = false := beq_eq_false_iff_ne.mpr he
      have hb2 : (k == k2) = false := beq_eq_false_iff_ne.mpr (Ne.symm he)
      simp [setAssoc, hb, List.lookup, hb2, ih]

/-! ### Delivery lemmas for the worker model -/

/-- C4 (code bug): `Worker.run` wraps the work function in no
try/except, so when the work function raises, the exception propagates
out of `run`: no result emission of any status is ever delivered —
whatever the connection state — hence `handle_result_signal` never runs
for that invocation and the palette is never resolved back to Hidden by
it (the spinner state is simply abandoned).  There is also no failure
status distinct from sub-command/completed anywhere in the code. -/
theorem C4_exception_never_reports (out : WorkOutput) (env : DeliveryEnv)
    (e : Unit) (h : out.outcome = Except.error e) :
    run_delivered out env = interDelivered env out.progressCalls ∧
    ∀ st r, Emission.result st r ∉ run_delivered out env := by
  constructor
  · simp [run_delivered, h]
  · intro st r hmem
    simp [run_delivered, h, interDelivered] at hmem

/-- The observable behaviour of a raising work function. -/
def crashOut : WorkOutput := { progressCalls := [], outcome := Except.error () }

/-- Both signals connected, flag never set: the active invocation. -/
def openEnv : DeliveryEnv :=
  { progressConnectedAt := fun _ => true, resultConnectedAt := fun _ => true
    cancelledAtCheck := false }

/-- Witness for C4: the concrete raising worker delivers no result. -/
theorem C4_exception_never_reports_witness :
    run_delivered crashOut openEnv = interDelivered openEnv crashOut.progressCalls ∧
    ∀ st r, Emission.result st r ∉ run_delivered crashOut openEnv :=
  C4_exception_never_reports crashOut openEnv () rfl

/-- C5: MRU round trip with consume-once semantics.  (1) A top-level
invocation of `cmd` (empty breadcrumbs, so the chosen item makes them
`[cmd]`) with a saved MRU path replaces the breadcrumbs with that path,
removes the entry, and starts the worker on the saved path.  (2) With no
MRU entry the plain path `[cmd]` is used.  (3) A completion with
breadcrumbs `c0 :: rest` stores `breadcrumbs[:-1]` under `c0`.
Together: save, one replay that consumes the entry, then plain `[cmd]`. -/
theorem C5_mru_round_trip :
    (∀ (env : ExecEnv) (cmd : String) (p : List String) (s : PaletteState),
      (s.commands_mru.map Prod.fst).Nodup →
      s.breadcrumbs = [] →
      s.commands_mru.lookup cmd = some p →
      (s.commands.lookup cmd).isSome = true →
      (handle_item_chosen env cmd s).map (fun s2 =>
        (s2.breadcrumbs, s2.commands_mru.lookup cmd,
          s2.worker.map Worker.breadcrumbs)) =
        some (p, none, some p)) ∧
    (∀ (env : ExecEnv) (cmd : String) (s : PaletteState),
      s.breadcrumbs = [] →
      s.commands_mru.lookup cmd = none →
      (s.commands.lookup cmd).isSome = true →
      (handle_item_chosen env cmd s).map (fun s2 =>
        (s2.breadcrumbs, s2.worker.map Worker.breadcrumbs)) =
        some ([cmd], some [cmd])) ∧
    (∀ (res : List String) (s : PaletteState) (c0 : String) (rest : List String),
      s.breadcrumbs = c0 :: rest →
      (handle_result_signal Status.completed res s).map (fun s2 =>
        s2.commands_mru.lookup c0) =
        some (some ((c0 :: rest).dropLast))) := by
  refine ⟨?_, ?_, ?_⟩
  · intro env cmd p s hnd hbc hmru hcmd
    obtain ⟨fn, hfn⟩ := Option.isSome_iff_exists.mp hcmd
    cases hw : s.worker with
    | none =>
      simp [handle_item_chosen, run_chosen_item, hbc, hmru, hfn,
        archive_worker, hw, lookup_removeAssoc_self hnd]
    | some w =>
      simp [handle_item_chosen, run_chosen_item, hbc, hmru, hfn,
        archive_worker, hw, lookup_removeAssoc_self hnd]
  · intro env cmd s hbc hmru hcmd
    obtain ⟨fn, hfn⟩ := Option.isSome_iff_exists.mp hcmd
    cases hw : s.worker with
    | none =>
      simp [handle_item_chosen, run_chosen_item, hbc, hmru, hfn,
        archive_worker, hw]
    | some w =>
      simp [handle_item_chosen, run_chosen_item, hbc, hmru, hfn,
        archive_worker, hw]
  · intro res s c0 rest hbc
    simp [handle_result_signal, hbc, hide, lookup_setAssoc_self]

/-- The work function registered for the C5 witness scenario. -/
def mruFn : CmdFn :=
  fun _ => { progressCalls := [], outcome := Except.ok (Status.subCommand, []) }

/-- A palette holding one command with a saved two-step MRU path. -/
def mruState : PaletteState :=
  { initState with
    commands := [("cmd", mruFn)]
    commands_mru := [("cmd", ["cmd", "sub1"])] }

/-- Thread-state oracle for the witness runs. -/
def mruEnv : ExecEnv := { isRunning := false, finishedIds := fun _ => false }

/-- Witness for C5 at the concrete saved path `["cmd", "sub1"]`. -/
theorem C5_mru_round_trip_witness :
    (handle_item_chosen mruEnv "cmd" mruState).map (fun s2 =>
      (s2.breadcrumbs, s2.commands_mru.lookup "cmd",
        s2.worker.map Worker.breadcrumbs)) =
      some (["cmd", "sub1"], none, some ["cmd", "sub1"]) :=
  C5_mru_round_trip.1 mruEnv "cmd" ["cmd", "sub1"] mruState
    (by simp [mruState]) rfl rfl rfl

/-- A command whose work completes immediately at depth 1
(like "Greet" in spec scenario A). -/
def greetFn : CmdFn :=
  fun _ => { progressCalls := [], outcome := Except.ok (Status.completed, []) }

/-- Thread oracle for the C1 trace: the finished first worker is not
running when archived, and no old worker needs scrubbing. -/
def quietEnv : ExecEnv := { isRunning := false, finishedIds := fun _ => false }

/-- The C1 trace: register "Greet", show, choose it, let it complete
(this stores `breadcrumbs[:-1] = []` in the MRU), show again, choose
"Greet" a second time (this consumes the empty MRU path). -/
def greetTrace : Option PaletteState :=
  (((handle_item_chosen quietEnv "Greet"
        (show_palette (add_command "Greet" greetFn initState))) >>=
      handle_result_signal Status.completed []).map show_palette) >>=
    handle_item_chosen quietEnv "Greet"

/-- C1 (code bug): after the MRU path saved by a depth-1 completion is
consumed, the palette holds a live invocation while `breadcrumbs = []`,
so `len(breadcrumbs) >= 1` fails and `breadcrumbs[0]` names nothing; when
that invocation then completes, `handle_result_signal` evaluates
`breadcrumbs[0]` on the empty list and raises IndexError (modelled as
`none`). -/
theorem C1_depth1_mru_breaks_invariant :
    greetTrace.map (fun s => (s.worker.isSome, s.breadcrumbs)) =
      some (true, []) ∧
    (greetTrace >>= handle_result_signal Status.completed []) = none :=
  ⟨rfl, rfl⟩

/-- A long-running command for the C3 trace (its behaviour after Escape
is what matters, not its output). -/
def slowCmd : CmdFn :=
  fun _ => { progressCalls := [], outcome := Except.ok (Status.completed, []) }

/-- Thread oracle for the C3 trace. -/
def slowEnv : ExecEnv := { isRunning := false, finishedIds := fun _ => false }

/-- The C3 trace: register "Slow", show, choose it (worker starts), then
press Escape — `keyPressEvent` calls `hide()`. -/
def escapedMid : Option PaletteState :=
  (handle_item_chosen slowEnv "Slow"
      (show_palette (add_command "Slow" slowCmd initState))).map hide

/-- C3 (code bug): `hide` resets the breadcrumbs and the displayed list
to the registry names and hides the widget, but it never calls
`archive_worker`: the running invocation keeps `cancelled = False` with
both signals connected, so it is not superseded, and when it later
completes the still-connected `handle_result_signal` evaluates
`breadcrumbs[0]` on the now-empty list and raises IndexError (`none`). -/
theorem C3_hide_leaves_worker_attached :
    escapedMid.map (fun s =>
        (s.breadcrumbs, s.displayed, s.visible,
          s.worker.map (fun w => (w.cancelled, w.progConn, w.resConn)))) =
      some ([], ["Slow"], false, some (false, true, true)) ∧
    (escapedMid >>= handle_result_signal Status.completed []) = none :=
  ⟨rfl, rfl⟩

/-- A retired worker whose thread has finished. -/
def retiredA : Worker :=
  { wid := 1, breadcrumbs := [], cancelled := true
    progConn := false, resConn := false }

/-- A second retired worker, also finished. -/
def retiredB : Worker :=
  { wid := 2, breadcrumbs := [], cancelled := true
    progConn := false, resConn := false }

/-- C6 (code bug): the reaping scan iterates over `old_workers` while
removing from it, so with two consecutive finished workers the iterator
skips the second: after the scan `retiredB` — whose `isFinished()` is
true (the oracle returns true for every worker here) — is still in the
retiring set, contradicting the claim that no finished worker remains. -/
theorem C6_scrub_skips_finished :
    pythonScrub (fun _ => true) [retiredA, retiredB] = [retiredB] ∧
    retiredB ∈ pythonScrub (fun _ => true) [retiredA, retiredB] :=
  ⟨rfl, by rw [show pythonScrub (fun _ => true) [retiredA, retiredB] =
      [retiredB] from rfl]; exact List.mem_singleton.mpr rfl⟩

end Cataplot
